import Mathlib

/-!
Shallow embedding of the `ai-limits` status-bar scripts (`codexbar.py` and
`limitsbar.py`).

Python/JSON values are modelled by `JVal`, Python exceptions by
`Except PyErr`, the external world (clock, files, network responses) by an
explicit `World` record, and file-system side effects by explicit traces
of operations.  Each script-level function is embedded under a namespace
named after its file (`Codexbar`, `Limitsbar`), keeping the Python name
with the leading underscore dropped (`_class_for` becomes `class_for`).

Rational arithmetic: the library's `Rat.add`, `Rat.sub`, `Rat.mul` and
`Rat.inv` are marked irreducible, which blocks kernel evaluation of
concrete runs, so the embedding computes with the reducible `qAdd`,
`qSub`, `qMul`, `qDiv` and `qFloor` below, each proved equal to the
corresponding standard operation.
-/

/-- Reducible addition on `ℚ`, mirroring `Rat.add_def'`. -/
def qAdd (a b : ℚ) : ℚ := mkRat (a.num * b.den + b.num * a.den) (a.den * b.den)

/-- Reducible subtraction on `ℚ`, mirroring `Rat.sub_def'`. -/
def qSub (a b : ℚ) : ℚ := mkRat (a.num * b.den - b.num * a.den) (a.den * b.den)

/-- Reducible multiplication on `ℚ`, mirroring `Rat.mul_def`. -/
def qMul (a b : ℚ) : ℚ := mkRat (a.num * b.num) (a.den * b.den)

/-- Reducible inverse on `ℚ`. -/
def qInv (a : ℚ) : ℚ := Rat.divInt a.den a.num

/-- Reducible division on `ℚ`. -/
def qDiv (a b : ℚ) : ℚ := qMul a (qInv b)

/-- Reducible floor of a rational. -/
def qFloor (q : ℚ) : Int := q.num / (q.den : Int)

theorem qAdd_eq (a b : ℚ) : qAdd a b = a + b := (Rat.add_def' a b).symm

theorem qSub_eq (a b : ℚ) : qSub a b = a - b := (Rat.sub_def' a b).symm

theorem qMul_eq (a b : ℚ) : qMul a b = a * b := by
  unfold qMul
  rw [Rat.mul_def, Rat.normalize_eq_mkRat]

theorem qInv_eq (a : ℚ) : qInv a = a⁻¹ := (Rat.inv_def' a).symm

theorem qDiv_eq (a b : ℚ) : qDiv a b = a / b := by
  rw [qDiv, qMul_eq, qInv_eq, div_eq_mul_inv]

theorem qFloor_eq (q : ℚ) : qFloor q = ⌊q⌋ := Rat.floor_def.symm

/-- A Python/JSON value as produced by `json.load`/`json.loads` and
manipulated by the scripts.  Python `None` and JSON `null` both map to
`JVal.null`; dicts are association lists in insertion order. -/
inductive JVal where
  | null
  | bool (b : Bool)
  | num (q : ℚ)
  | str (s : String)
  | arr (xs : List JVal)
  | obj (kvs : List (String × JVal))
deriving Repr

mutual

/-- Decidable equality on `JVal` (the nested lists rule out `deriving`). -/
def JVal.decEq : (a b : JVal) → Decidable (a = b)
  | .null, .null => .isTrue rfl
  | .bool a, .bool b =>
      if h : a = b then .isTrue (by rw [h])
      else .isFalse (by intro e; cases e; exact h rfl)
  | .num a, .num b =>
      if h : a = b then .isTrue (by rw [h])
      else .isFalse (by intro e; cases e; exact h rfl)
  | .str a, .str b =>
      if h : a = b then .isTrue (by rw [h])
      else .isFalse (by intro e; cases e; exact h rfl)
  | .arr xs, .arr ys =>
      match JVal.decEqList xs ys with
      | .isTrue h => .isTrue (by rw [h])
      | .isFalse h => .isFalse (by intro e; cases e; exact h rfl)
  | .obj xs, .obj ys =>
      match JVal.decEqKvs xs ys with
      | .isTrue h => .isTrue (by rw [h])
      | .isFalse h => .isFalse (by intro e; cases e; exact h rfl)
  | .null, .bool _ => .isFalse (by intro e; cases e)
  | .null, .num _ => .isFalse (by intro e; cases e)
  | .null, .str _ => .isFalse (by intro e; cases e)
  | .null, .arr _ => .isFalse (by intro e; cases e)
  | .null, .obj _ => .isFalse (by intro e; cases e)
  | .bool _, .null => .isFalse (by intro e; cases e)
  | .bool _, .num _ => .isFalse (by intro e; cases e)
  | .bool _, .str _ => .isFalse (by intro e; cases e)
  | .bool _, .arr _ => .isFalse (by intro e; cases e)
  | .bool _, .obj _ => .isFalse (by intro e; cases e)
  | .num _, .null => .isFalse (by intro e; cases e)
  | .num _, .bool _ => .isFalse (by intro e; cases e)
  | .num _, .str _ => .isFalse (by intro e; cases e)
  | .num _, .arr _ => .isFalse (by intro e; cases e)
  | .num _, .obj _ => .isFalse (by intro e; cases e)
  | .str _, .null => .isFalse (by intro e; cases e)
  | .str _, .bool _ => .isFalse (by intro e; cases e)
  | .str _, .num _ => .isFalse (by intro e; cases e)
  | .str _, .arr _ => .isFalse (by intro e; cases e)
  | .str _, .obj _ => .isFalse (by intro e; cases e)
  | .arr _, .null => .isFalse (by intro e; cases e)
  | .arr _, .bool _ => .isFalse (by intro e; cases e)
  | .arr _, .num _ => .isFalse (by intro e; cases e)
  | .arr _, .str _ => .isFalse (by intro e; cases e)
  | .arr _, .obj _ => .isFalse (by intro e; cases e)
  | .obj _, .null => .isFalse (by intro e; cases e)
  | .obj _, .bool _ => .isFalse (by intro e; cases e)
  | .obj _, .num _ => .isFalse (by intro e; cases e)
  | .obj _, .str _ => .isFalse (by intro e; cases e)
  | .obj _, .arr _ => .isFalse (by intro e; cases e)

/-- Decidable equality on lists of `JVal`. -/
def JVal.decEqList : (a b : List JVal) → Decidable (a = b)
  | [], [] => .isTrue rfl
  | x :: xs, y :: ys =>
      match JVal.decEq x y, JVal.decEqList xs ys with
      | .isTrue h1, .isTrue h2 => .isTrue (by rw [h1, h2])
      | .isFalse h1, _ => .isFalse (by intro e; cases e; exact h1 rfl)
      | _, .isFalse h2 => .isFalse (by intro e; cases e; exact h2 rfl)
  | [], _ :: _ => .isFalse (by intro e; cases e)
  | _ :: _, [] => .isFalse (by intro e; cases e)

/-- Decidable equality on the key-value lists of `JVal` dicts. -/
def JVal.decEqKvs : (a b : List (String × JVal)) → Decidable (a = b)
  | [], [] => .isTrue rfl
  | (k, v) :: xs, (l, w) :: ys =>
      if h1 : k = l then
        match JVal.decEq v w, JVal.decEqKvs xs ys with
        | .isTrue h2, .isTrue h3 => .isTrue (by rw [h1, h2, h3])
        | .isFalse h2, _ => .isFalse (by intro e; cases e; exact h2 rfl)
        | _, .isFalse h3 => .isFalse (by intro e; cases e; exact h3 rfl)
      else .isFalse (by intro e; cases e; exact h1 rfl)
  | [], _ :: _ => .isFalse (by intro e; cases e)
  | _ :: _, [] => .isFalse (by intro e; cases e)

end

instance : DecidableEq JVal := JVal.decEq

/-- The Python exceptions raised or caught by the scripts. -/
inductive PyErr where
  /-- `FileNotFoundError` with its message. -/
  | fileNotFound (msg : String)
  /-- `json.JSONDecodeError` (a subclass of `ValueError`). -/
  | jsonDecode (msg : String)
  /-- `urllib.error.HTTPError` carrying the HTTP status code. -/
  | httpError (code : Nat)
  /-- `urllib.error.URLError` or another network-level failure. -/
  | netError (msg : String)
  /-- `TypeError`. -/
  | typeError (msg : String)
  /-- `ValueError`. -/
  | valueError (msg : String)
  /-- `RuntimeError`. -/
  | runtimeError (msg : String)
  /-- `AttributeError`, e.g. calling `.get` on a non-dict. -/
  | attributeError (msg : String)
deriving DecidableEq, Repr

instance {ε α : Type} [DecidableEq ε] [DecidableEq α] : DecidableEq (Except ε α) := fun a b =>
  match a, b with
  | .ok x, .ok y =>
      if h : x = y then .isTrue (by rw [h])
      else .isFalse (by intro e; cases e; exact h rfl)
  | .error x, .error y =>
      if h : x = y then .isTrue (by rw [h])
      else .isFalse (by intro e; cases e; exact h rfl)
  | .ok _, .error _ => .isFalse (by intro e; cases e)
  | .error _, .ok _ => .isFalse (by intro e; cases e)

/-- Python `str(e)` on an exception, as interpolated into error texts. -/
def PyErr.text : PyErr → String
  | .fileNotFound m => m
  | .jsonDecode m => m
  | .httpError c => "HTTP Error " ++ toString c
  | .netError m => m
  | .typeError m => m
  | .valueError m => m
  | .runtimeError m => m
  | .attributeError m => m

/-- Python truthiness of a value. -/
def JVal.truthy : JVal → Bool
  | .null => false
  | .bool b => b
  | .num q => q != 0
  | .str s => s != ""
  | .arr xs => !xs.isEmpty
  | .obj kvs => !kvs.isEmpty

/-- `v.get(k)` on a Python dict (with default `None`); any other receiver
has no `get` attribute and raises `AttributeError`. -/
def JVal.get : JVal → String → Except PyErr JVal
  | .obj kvs, k => .ok ((List.lookup k kvs).getD .null)
  | _, _ => .error (.attributeError "object has no attribute get")

/-- `v.get(k, d)` on a Python dict with an explicit default. -/
def JVal.getD : JVal → String → JVal → Except PyErr JVal
  | .obj kvs, k, d => .ok ((List.lookup k kvs).getD d)
  | _, _, _ => .error (.attributeError "object has no attribute get")

/-- Update of an association list at a key, preserving insertion order as
a Python dict assignment does. -/
def setKey : List (String × JVal) → String → JVal → List (String × JVal)
  | [], k, v => [(k, v)]
  | (k', v') :: rest, k, v =>
      if k' = k then (k, v) :: rest else (k', v') :: setKey rest k v

/-- Python `v[k] = x` item assignment on a dict. -/
def JVal.set : JVal → String → JVal → Except PyErr JVal
  | .obj kvs, k, v => .ok (.obj (setKey kvs k v))
  | _, _, _ => .error (.typeError "object does not support item assignment")

/-- Python `x or {}`. -/
def orEmptyObj (v : JVal) : JVal := if v.truthy then v else .obj []

/-- Python `x or []`. -/
def orEmptyArr (v : JVal) : JVal := if v.truthy then v else .arr []

/-- Truncation toward zero, as Python `int()` on a number. -/
def pyTrunc (q : ℚ) : Int := q.num.tdiv q.den

/-- Python `round()` on a number: round half to even, to an integer.  The
fractional part `q - ⌊q⌋` is compared with `1/2` through the integer
remainder `q.num % q.den`. -/
def pyRound (q : ℚ) : Int :=
  let f : Int := qFloor q
  let r : Int := q.num % (q.den : Int)
  if 2 * r < (q.den : Int) then f
  else if (q.den : Int) < 2 * r then f + 1
  else if f % 2 = 0 then f else f + 1

/-- A non-empty all-digit character list as a natural number. -/
def decNat : List Char → Option Nat
  | [] => none
  | cs =>
      if cs.all Char.isDigit then
        some (cs.foldl (fun a c => 10 * a + (c.toNat - 48)) 0)
      else none

/-- Model of Python `int(s)` on a string: optional sign and decimal
digits (surrounding whitespace and underscores are outside the modelled
subset). -/
def intOfString (s : String) : Option Int :=
  match s.data with
  | '-' :: rest => (decNat rest).map (fun n => -(n : Int))
  | '+' :: rest => (decNat rest).map (fun n => (n : Int))
  | cs => (decNat cs).map (fun n => (n : Int))

/-- Unsigned decimal literal with an optional point, as a rational. -/
def floatNoSign (cs : List Char) : Option ℚ :=
  match List.splitOn '.' cs with
  | [ds] => (decNat ds).map (fun n => (n : ℚ))
  | [ds, fs] =>
      if ds.isEmpty && fs.isEmpty then none
      else if ds.all Char.isDigit && fs.all Char.isDigit then
        some (mkRat ((ds.foldl (fun a c => 10 * a + (c.toNat - 48)) 0 * 10 ^ fs.length
          + fs.foldl (fun a c => 10 * a + (c.toNat - 48)) 0 : Nat) : Int) (10 ^ fs.length))
      else none
  | _ => none

/-- Model of Python `float(s)` on a string: optional sign, digits and an
optional fractional part (exponent forms are outside the modelled
subset). -/
def floatOfString (s : String) : Option ℚ :=
  match s.data with
  | '-' :: rest => (floatNoSign rest).map (fun q => qSub 0 q)
  | '+' :: rest => floatNoSign rest
  | cs => floatNoSign cs

/-- Python `int(x)`: truncates numbers, converts bools, parses decimal
strings (`ValueError` on failure), and raises `TypeError` otherwise. -/
def pyIntOf : JVal → Except PyErr Int
  | .num q => .ok (pyTrunc q)
  | .bool b => .ok (if b then 1 else 0)
  | .str s =>
      match intOfString s with
      | some n => .ok n
      | none => .error (.valueError ("invalid literal for int with base 10: " ++ s))
  | .null => .error (.typeError "int() argument must be a string or a number, not NoneType")
  | .arr _ => .error (.typeError "int() argument must be a string or a number, not list")
  | .obj _ => .error (.typeError "int() argument must be a string or a number, not dict")

/-- The numeric view of a value for comparisons: Python bools compare as
the integers 0 and 1. -/
def JVal.asNum? : JVal → Option ℚ
  | .num q => some q
  | .bool b => some (if b then 1 else 0)
  | _ => none

/-- Python `a > b` for the value shapes the scripts compare (numbers,
bools, strings).  Ordering of lists, dicts and mixed types is modelled as
`TypeError` (dicts and mixed types do raise in Python; list ordering is
outside the modelled subset). -/
def pyGt (a b : JVal) : Except PyErr Bool :=
  match a.asNum?, b.asNum? with
  | some x, some y => .ok (decide (y < x))
  | _, _ =>
      match a, b with
      | .str x, .str y => .ok (decide (y < x))
      | _, _ => .error (.typeError "unsupported comparison between instances")

/-- Python `a >= b`, with the same modelled subset as `pyGt`. -/
def pyGe (a b : JVal) : Except PyErr Bool :=
  match a.asNum?, b.asNum? with
  | some x, some y => .ok (decide (y ≤ x))
  | _, _ =>
      match a, b with
      | .str x, .str y => .ok (decide (y ≤ x))
      | _, _ => .error (.typeError "unsupported comparison between instances")

/-- Python `x in y` for list membership and string containment; other
receivers raise `TypeError`. -/
def pyIn (x y : JVal) : Except PyErr Bool :=
  match y with
  | .arr xs => .ok (xs.contains x)
  | .str s =>
      match x with
      | .str t => .ok (decide (t.data <:+: s.data))
      | _ => .error (.typeError "in string requires string as left operand")
  | _ => .error (.typeError "argument of type is not iterable")

/-- Python `max(xs)` continued from a current maximum: a later element
replaces it exactly when it compares strictly greater. -/
def pyMaxFrom (cur : JVal) : List JVal → Except PyErr JVal
  | [] => .ok cur
  | x :: rest => do
      let b ← pyGt x cur
      pyMaxFrom (if b then x else cur) rest

/-- Python `str(x)` as used by f-string interpolation.  Integral numbers
render exactly; containers and non-integral numbers use a modelled
rendering. -/
def pyStr : JVal → String
  | .null => "None"
  | .bool b => if b then "True" else "False"
  | .num q => if q.den = 1 then toString q.num else toString q.num ++ "/" ++ toString q.den
  | .str s => s
  | .arr _ => "[...]"
  | .obj _ => "\x7b...\x7d"

/-! ### Calendar and timestamp model

Datetimes are modelled by their epoch value in seconds (a rational, so
microseconds are exact).  Only offset-aware datetimes occur in the
modelled subset; the scripts themselves only ever construct aware ones. -/

/-- Gregorian leap year. -/
def isLeap (y : Nat) : Bool := (y % 4 == 0 && y % 100 != 0) || y % 400 == 0

/-- Days in a month (1-based). -/
def daysInMonth (y m : Nat) : Nat :=
  if m = 2 then (if isLeap y then 29 else 28)
  else if m = 4 || m = 6 || m = 9 || m = 11 then 30
  else 31

/-- Days in year `y` before the first day of month `m` (1-based). -/
def daysBeforeMonth (y m : Nat) : Nat :=
  let base :=
    match m with
    | 1 => 0 | 2 => 31 | 3 => 59 | 4 => 90 | 5 => 120 | 6 => 151
    | 7 => 181 | 8 => 212 | 9 => 243 | 10 => 273 | 11 => 304 | _ => 334
  if 2 < m && isLeap y then base + 1 else base

/-- Days before January 1st of year `y` in the proleptic Gregorian
calendar (year 1 is the first year, as in Python's `date.toordinal`). -/
def daysBeforeYear (y : Nat) : Nat :=
  365 * (y - 1) + (y - 1) / 4 - (y - 1) / 100 + (y - 1) / 400

/-- Python `date(y, m, d).toordinal()`. -/
def toOrdinal (y m d : Nat) : Nat := daysBeforeYear y + daysBeforeMonth y m + d

/-- `date(1970, 1, 1).toordinal()`. -/
def epochOrdinal : Nat := 719163

/-- Civil date from a count of days since 1970-01-01. -/
def civilFromDays (z : Int) : Int × Nat × Nat :=
  let z' := z + 719468
  let era : Int := Int.fdiv z' 146097
  let doe : Nat := (z' - era * 146097).toNat
  let yoe : Nat := (doe - doe / 1460 + doe / 36524 - doe / 146096) / 365
  let y : Int := (yoe : Int) + era * 400
  let doy : Nat := doe - (365 * yoe + yoe / 4 - yoe / 100)
  let mp : Nat := (5 * doy + 2) / 153
  let d : Nat := doy - (153 * mp + 2) / 5 + 1
  let m : Nat := if mp < 10 then mp + 3 else mp - 9
  (if m ≤ 2 then y + 1 else y, m, d)

/-- Zero-padding to two digits. -/
def pad2 (n : Nat) : String := if n < 10 then "0" ++ toString n else toString n

/-- Zero-padding to four digits. -/
def pad4 (n : Nat) : String :=
  if n < 10 then "000" ++ toString n
  else if n < 100 then "00" ++ toString n
  else if n < 1000 then "0" ++ toString n
  else toString n

/-- Zero-padding to six digits. -/
def pad6 (n : Nat) : String :=
  if n < 10 then "00000" ++ toString n
  else if n < 100 then "0000" ++ toString n
  else if n < 1000 then "000" ++ toString n
  else if n < 10000 then "00" ++ toString n
  else if n < 100000 then "0" ++ toString n
  else toString n

/-- `strftime("%Y-%m-%d %H:%M")` of an epoch-seconds value (already
shifted into the display timezone). -/
def formatYmdHm (t : Int) : String :=
  let days := Int.fdiv t 86400
  let secs := (t - days * 86400).toNat
  match civilFromDays days with
  | (y, m, d) =>
      pad4 y.toNat ++ "-" ++ pad2 m ++ "-" ++ pad2 d ++ " " ++
        pad2 (secs / 3600) ++ ":" ++ pad2 (secs % 3600 / 60)

/-- `datetime.isoformat()` of an aware UTC datetime, with the trailing
`+00:00` replaced by `Z` as `main` does for `last_refresh`. -/
def isoformatZ (now : ℚ) : String :=
  let micros : Int := qFloor (qMul now 1000000)
  let days := Int.fdiv micros 86400000000
  let rem : Nat := (micros - days * 86400000000).toNat
  match civilFromDays days with
  | (y, m, d) =>
      let secOfDay := rem / 1000000
      let mu := rem % 1000000
      pad4 y.toNat ++ "-" ++ pad2 m ++ "-" ++ pad2 d ++ "T" ++
        pad2 (secOfDay / 3600) ++ ":" ++ pad2 (secOfDay % 3600 / 60) ++ ":" ++
        pad2 (secOfDay % 60) ++ (if mu = 0 then "" else "." ++ pad6 mu) ++ "Z"

/-- The UTC datetime of an integer timestamp is representable exactly
when its year lies in 1..9999; outside it `fromtimestamp` raises. -/
def tsInRange (t : Int) : Bool := -62135596800 ≤ t && t ≤ 253402300799

/-- Two decimal digits. -/
def twoDigits (a b : Char) : Option Nat :=
  if a.isDigit && b.isDigit then some (10 * (a.toNat - 48) + (b.toNat - 48)) else none

/-- `YYYY-MM-DD` prefix of an ISO-8601 string. -/
def parseIsoDate : List Char → Option (Nat × Nat × Nat × List Char)
  | y1 :: y2 :: y3 :: y4 :: '-' :: m1 :: m2 :: '-' :: d1 :: d2 :: rest =>
      if (y1.isDigit && y2.isDigit && y3.isDigit && y4.isDigit) then
        match twoDigits m1 m2, twoDigits d1 d2 with
        | some m, some d =>
            some (1000 * (y1.toNat - 48) + 100 * (y2.toNat - 48) +
              10 * (y3.toNat - 48) + (y4.toNat - 48), m, d, rest)
        | _, _ => none
      else none
  | _ => none

/-- A fractional-seconds field of exactly three or six digits, in
microseconds. -/
def fracMicros (digs : List Char) : Option Nat :=
  match decNat digs with
  | none => none
  | some f =>
      if digs.length = 3 then some (f * 1000)
      else if digs.length = 6 then some f
      else none

/-- `HH:MM[:SS[.fff[fff]]]` part of an ISO-8601 string, in microseconds
within the day, plus the unconsumed rest. -/
def parseIsoTime : List Char → Option (Nat × List Char)
  | h1 :: h2 :: ':' :: m1 :: m2 :: rest =>
      match twoDigits h1 h2, twoDigits m1 m2 with
      | some h, some mi =>
          if 24 ≤ h || 60 ≤ mi then none
          else
            match rest with
            | ':' :: s1 :: s2 :: rest2 =>
                match twoDigits s1 s2 with
                | some s =>
                    if 60 ≤ s then none
                    else
                      match rest2 with
                      | '.' :: rest3 =>
                          match rest3.span Char.isDigit with
                          | (digs, rest4) =>
                              match fracMicros digs with
                              | some f =>
                                  some ((h * 3600 + mi * 60 + s) * 1000000 + f, rest4)
                              | none => none
                      | _ => some ((h * 3600 + mi * 60 + s) * 1000000, rest2)
                | none => none
            | _ => some ((h * 3600 + mi * 60) * 1000000, rest)
      | _, _ => none
  | _ => none

/-- A `+HH:MM` or `-HH:MM` timezone offset consuming the whole rest, in
seconds. -/
def parseOffset : List Char → Option Int
  | sign :: h1 :: h2 :: ':' :: m1 :: m2 :: [] =>
      match twoDigits h1 h2, twoDigits m1 m2 with
      | some h, some mi =>
          if 24 ≤ h || 60 ≤ mi then none
          else
            let tot : Int := h * 3600 + mi * 60
            if sign = '+' then some tot
            else if sign = '-' then some (-tot)
            else none
      | _, _ => none
  | _ => none

/-- Model of `datetime.datetime.fromisoformat`, returning the epoch value
in seconds for the subset `YYYY-MM-DD[T ]HH:MM[:SS[.fff[fff]]]±HH:MM`.
Returns `none` on malformed or out-of-range strings, and also for naive
(offset-free) strings, which the scripts never produce and whose
naive-datetime behaviour is outside the modelled subset. -/
def fromisoformat (s : String) : Option ℚ :=
  match parseIsoDate s.data with
  | none => none
  | some (y, m, d, rest) =>
      if y = 0 || m = 0 || 12 < m || d = 0 || daysInMonth y m < d then none
      else
        match rest with
        | [] => none
        | sep :: rest1 =>
            if sep ≠ 'T' && sep ≠ ' ' then none
            else
              match parseIsoTime rest1 with
              | none => none
              | some (micros, rest2) =>
                  match parseOffset rest2 with
                  | none => none
                  | some off =>
                      some (mkRat (((toOrdinal y m d : Int) - (epochOrdinal : Int)) * 86400000000
                        + (micros : Int) - off * 1000000) 1000000)

example : civilFromDays 0 = (1970, 1, 1) := by decide
example : formatYmdHm 0 = "1970-01-01 00:00" := by decide
example : fromisoformat "2026-02-04T10:59:59.868195+00:00"
    = some (mkRat 1770202799868195 1000000) := by decide
example : fromisoformat "2026-02-04" = none := by decide
example : fromisoformat "2026-13-04T00:00:00+00:00" = none := by decide
example : isoformatZ (mkRat 1770202799868195 1000000) = "2026-02-04T10:59:59.868195Z" := by decide

/-! ### External world, effects and the output channel -/

/-- The observable outcome of an HTTP exchange. -/
inductive HttpResp where
  /-- non-2xx status: `urlopen` raises `urllib.error.HTTPError`. -/
  | httpError (code : Nat)
  /-- network-level failure (`URLError`, timeout, ...). -/
  | netError (msg : String)
  /-- 2xx, carrying the result of `json.loads` on the body (`.error m`
  when the body is not valid JSON, with `m` the decoder's message). -/
  | ok (body : Except String JVal)
deriving DecidableEq, Repr

/-- One run's external environment.  File contents are represented by
their `json.load` outcome: `none` means the file is absent, `some
(.error m)` that it exists but is not valid JSON, `some (.ok v)` that it
parses to `v`. -/
structure World where
  /-- `os.path.expanduser("~")`. -/
  home : String
  /-- the `CODEX_HOME` environment variable, when set. -/
  codexHome : Option String := none
  /-- the `CODEX_USAGE_URL` environment variable, when set. -/
  codexUsageUrl : Option String := none
  /-- `_now_utc()` as an epoch value in seconds. -/
  now : ℚ
  /-- local timezone offset from UTC in seconds (for `astimezone`). -/
  tzOffset : Int := 0
  /-- the Codex `auth.json` file. -/
  codexAuth : Option (Except String JVal) := none
  /-- the Claude `.credentials.json` file. -/
  claudeCreds : Option (Except String JVal) := none
  /-- answer to the OAuth token-refresh POST. -/
  refreshResp : HttpResp := .netError "unreachable"
  /-- answer to the Codex usage GET. -/
  usageResp : HttpResp := .netError "unreachable"
  /-- answer to the Claude usage GET. -/
  claudeUsageResp : HttpResp := .netError "unreachable"
deriving Repr

/-- A file-system write effect. -/
inductive FsOp where
  /-- `open(path, "w")` plus a complete `json.dump(data, ...)`. -/
  | write (path : String) (data : JVal)
  /-- `os.replace(src, dst)`. -/
  | replace (src dst : String)
deriving DecidableEq, Repr

/-- An outgoing HTTP request, with its JSON body unserialized. -/
structure Request where
  url : String
  method : String
  headers : List (String × String)
  body : Option JVal := none
deriving DecidableEq, Repr

/-- `os.path.join` for the relative-second-component cases the scripts
use. -/
def pathJoin (a b : String) : String := a ++ "/" ++ b

/-- The five-field payload both scripts emit; `klass` models the
`"class"` key (a Lean keyword). -/
structure Payload where
  text : String
  tooltip : String
  klass : String
  percentage : Int
  alt : String
deriving DecidableEq, Repr

/-- Lower-case hexadecimal digit. -/
def hexDigit (n : Nat) : Char :=
  if n < 10 then Char.ofNat (48 + n) else Char.ofNat (87 + n)

/-- Four lower-case hexadecimal digits. -/
def hex4 (n : Nat) : String :=
  String.mk [hexDigit (n / 4096 % 16), hexDigit (n / 256 % 16),
    hexDigit (n / 16 % 16), hexDigit (n % 16)]

/-- One character of a JSON string under `json.dumps` with its default
`ensure_ascii=True` (non-ASCII goes to `\uXXXX`, astral characters to a
surrogate pair). -/
def jsonEscapeChar (c : Char) : String :=
  if c = '"' then "\\\""
  else if c = '\\' then "\\\\"
  else if c = '\n' then "\\n"
  else if c = '\r' then "\\r"
  else if c = '\t' then "\\t"
  else if c = Char.ofNat 8 then "\\b"
  else if c = Char.ofNat 12 then "\\f"
  else if c.toNat < 32 then "\\u" ++ hex4 c.toNat
  else if c.toNat < 127 then String.mk [c]
  else if c.toNat < 65536 then "\\u" ++ hex4 c.toNat
  else
    "\\u" ++ hex4 (55296 + (c.toNat - 65536) / 1024) ++
      "\\u" ++ hex4 (56320 + (c.toNat - 65536) % 1024)

/-- A JSON string literal for `s`. -/
def jsonQuote (s : String) : String :=
  "\"" ++ String.join (s.data.map jsonEscapeChar) ++ "\""

example : jsonQuote "a\rb" = "\"a\\rb\"" := by decide
example : pyTrunc (mkRat 7 2) = 3 := by decide

/-! ### codexbar.py -/

namespace Codexbar

def AUTH_REFRESH_INTERVAL_SECONDS : Nat := 8 * 24 * 60 * 60

def DEFAULT_USAGE_URL : String := "https://chatgpt.com/backend-api/wham/usage"

def REFRESH_URL : String := "https://auth.openai.com/oauth/token"

def REFRESH_CLIENT_ID : String := "app_EMoamEEZ73f0CkXaXp7hrann"

/-- `_parse_iso8601(value)`: the argument is the raw JSON value; a falsy
value gives `None`, a non-string raises `AttributeError` inside the
`try` (giving `None`), and for a string a trailing `Z` is replaced by
`+00:00` before `fromisoformat` (whose failure also gives `None`). -/
def parse_iso8601 (value : JVal) : Option ℚ :=
  if !value.truthy then none
  else
    match value with
    | .str s =>
        fromisoformat (if s.data.getLast? == some 'Z'
          then String.mk s.data.dropLast ++ "+00:00" else s)
    | _ => none

/-- `_auth_path()`, with the environment passed explicitly. -/
def auth_path (home : String) (codexHome : Option String) : String :=
  let ch := codexHome.getD ""
  if ch ≠ "" then pathJoin ch "auth.json"
  else pathJoin (pathJoin home ".codex") "auth.json"

/-- `_read_auth()`: the parsed JSON and the path; raises
`FileNotFoundError` when absent, `json.JSONDecodeError` on bad JSON. -/
def read_auth (w : World) : Except PyErr (JVal × String) :=
  let path := auth_path w.home w.codexHome
  match w.codexAuth with
  | none => .error (.fileNotFound ("auth.json not found at " ++ path))
  | some (.error m) => .error (.jsonDecode m)
  | some (.ok v) => .ok (v, path)

/-- `_write_auth(path, data)`: a complete dump to `path + ".tmp"`, then
one `os.replace` onto `path`. -/
def write_auth (path : String) (data : JVal) : List FsOp :=
  [.write (path ++ ".tmp") data, .replace (path ++ ".tmp") path]

/-- `_needs_refresh(last_refresh)`. -/
def needs_refresh (now : ℚ) (last_refresh : Option ℚ) : Bool :=
  match last_refresh with
  | none => true
  | some t => decide ((AUTH_REFRESH_INTERVAL_SECONDS : ℚ) < qSub now t)

/-- `_refresh_tokens(refresh_token)`: the POST request it issues and the
parsed JSON result, `resp` being the world's answer to that request. -/
def refresh_tokens (resp : HttpResp) (refresh_token : JVal) :
    Request × Except PyErr JVal :=
  let payload : JVal := .obj [("client_id", .str REFRESH_CLIENT_ID),
    ("grant_type", .str "refresh_token"),
    ("refresh_token", refresh_token),
    ("scope", .str "openid profile email")]
  let req : Request := ⟨REFRESH_URL, "POST", [("Content-Type", "application/json")], some payload⟩
  (req,
    match resp with
    | .httpError c => .error (.httpError c)
    | .netError m => .error (.netError m)
    | .ok (.error m) => .error (.jsonDecode m)
    | .ok (.ok v) => .ok v)

/-- `_fetch_usage(access_token, account_id)`. -/
def fetch_usage (usageUrlEnv : Option String) (resp : HttpResp)
    (access_token : JVal) (account_id : JVal) : Request × Except PyErr JVal :=
  let url := usageUrlEnv.getD DEFAULT_USAGE_URL
  let headers := [("Authorization", "Bearer " ++ pyStr access_token),
    ("User-Agent", "codex-cli"), ("Accept", "application/json")]
  let headers := if account_id.truthy
    then headers ++ [("ChatGPT-Account-Id", pyStr account_id)] else headers
  let req : Request := ⟨url, "GET", headers, none⟩
  (req,
    match resp with
    | .httpError c => .error (.httpError c)
    | .netError m => .error (.netError m)
    | .ok (.error m) => .error (.jsonDecode m)
    | .ok (.ok v) => .ok v)

/-- `_format_reset(ts)` on the raw JSON value `ts`. -/
def format_reset (tzOffset : Int) (ts : JVal) : String :=
  if !ts.truthy then "unknown"
  else
    match pyIntOf ts with
    | .error _ => "unknown"
    | .ok t =>
        if !tsInRange t then "unknown"
        else formatYmdHm (t + tzOffset)

/-- `_format_eta(ts)` on the raw JSON value `ts`. -/
def format_eta (now : ℚ) (ts : JVal) : String :=
  if !ts.truthy then "unknown"
  else
    match pyIntOf ts with
    | .error _ => "unknown"
    | .ok t =>
        if !tsInRange t then "unknown"
        else
          let total : Int := pyTrunc (qSub (t : ℚ) now)
          if total ≤ 0 then "now"
          else
            toString (Int.fdiv total 3600) ++ "h " ++
              toString (Int.fdiv (Int.fmod total 3600) 60) ++ "m"

/-- `_class_for(percent)`: `percent` is `None` or the raw maximum value
(compared against the numbers 90 and 70, which can raise for non-numeric
shapes). -/
def class_for (percent : Option JVal) : Except PyErr String :=
  match percent with
  | none => .ok "unknown"
  | some p => do
      if (← pyGe p (.num 90)) then pure "critical"
      else if (← pyGe p (.num 70)) then pure "warn"
      else pure "ok"

/-- `_emit(payload)`: the single line written to stdout,
`json.dumps(payload, separators=(",", ":"))`. -/
def emit (p : Payload) : String :=
  "\x7b\"text\":" ++ jsonQuote p.text ++ ",\"tooltip\":" ++ jsonQuote p.tooltip ++
    ",\"class\":" ++ jsonQuote p.klass ++ ",\"percentage\":" ++ toString p.percentage ++
    ",\"alt\":" ++ jsonQuote p.alt ++ "\x7d"

/-- The conditional refresh block of `main` (lines guarded by
`if refresh_token and _needs_refresh(last_refresh)`): merges the
refreshed tokens, stamps `last_refresh`, writes the file, and re-reads
the access token; when the branch is not taken it keeps the old access
token and performs no write. -/
def refresh_block (now : ℚ) (resp : HttpResp) (auth tokens access_token refresh_token : JVal)
    (last_refresh : Option ℚ) (path : String) : Except PyErr (JVal × List FsOp) :=
  if refresh_token.truthy && needs_refresh now last_refresh then
    match (refresh_tokens resp refresh_token).2 with
    | .error e => .error e
    | .ok refreshed =>
      match refreshed.getD "access_token" access_token with
      | .error e => .error e
      | .ok a1 =>
      match tokens.set "access_token" a1 with
      | .error e => .error e
      | .ok tokens1 =>
      match refreshed.getD "refresh_token" refresh_token with
      | .error e => .error e
      | .ok r1 =>
      match tokens1.set "refresh_token" r1 with
      | .error e => .error e
      | .ok tokens2 =>
      match refreshed.get "id_token" with
      | .error e => .error e
      | .ok idt =>
      match (if idt.truthy then tokens2.set "id_token" idt else .ok tokens2) with
      | .error e => .error e
      | .ok tokens3 =>
      match auth.set "tokens" tokens3 with
      | .error e => .error e
      | .ok auth1 =>
      match auth1.set "last_refresh" (.str (isoformatZ now)) with
      | .error e => .error e
      | .ok auth2 =>
      match tokens3.get "access_token" with
      | .error e => .error e
      | .ok a2 => .ok (a2, write_auth path auth2)
  else .ok (access_token, [])

/-- The `for p in [daily_percent, weekly_percent]` maximum loop in
`main`, continued from the current maximum: `None` entries are skipped
and a later entry replaces the maximum when it compares strictly
greater. -/
def top_percent_fold (top : Option JVal) : List JVal → Except PyErr (Option JVal)
  | [] => .ok top
  | p :: rest =>
      if p == JVal.null then top_percent_fold top rest
      else
        match top with
        | none => top_percent_fold (some p) rest
        | some t => do
            let b ← pyGt p t
            top_percent_fold (if b then some p else some t) rest

/-- The whole maximum loop of `main`, starting from `top_percent = None`. -/
def top_percent_loop (ps : List JVal) : Except PyErr (Option JVal) :=
  top_percent_fold none ps

/-- `int(top_percent) if top_percent is not None else 0` in `main`. -/
def percentage_value (top : Option JVal) : Except PyErr Int :=
  match top with
  | none => .ok 0
  | some v => pyIntOf v

/-- `"--" if p is None else f"{int(p)}%"`. -/
def percent_text (p : JVal) : Except PyErr String :=
  if p == JVal.null then pure "--"
  else do
    let n ← pyIntOf p
    pure (toString n ++ "%")

/-- The body of `main()`'s `try` block: either the payload it would
emit, or the exception that reaches the outer handlers; paired with the
file-system writes performed on the way. -/
def main_attempt (w : World) : Except PyErr Payload × List FsOp :=
  match read_auth w with
  | .error e => (.error e, [])
  | .ok (auth, path) =>
  match auth.get "tokens" with
  | .error e => (.error e, [])
  | .ok tokensRaw =>
  let tokens := orEmptyObj tokensRaw
  match tokens.get "access_token" with
  | .error e => (.error e, [])
  | .ok access_token =>
  match tokens.get "refresh_token" with
  | .error e => (.error e, [])
  | .ok refresh_token =>
  match tokens.get "account_id" with
  | .error e => (.error e, [])
  | .ok account_id =>
  if !access_token.truthy then
    (.error (.runtimeError "Missing access_token in auth.json"), [])
  else
  match auth.get "last_refresh" with
  | .error e => (.error e, [])
  | .ok lastRefreshRaw =>
  let last_refresh := parse_iso8601 lastRefreshRaw
  let afterRefresh := refresh_block w.now w.refreshResp auth tokens access_token
    refresh_token last_refresh path
  match afterRefresh with
  | .error e => (.error e, [])
  | .ok (access_token2, ops) =>
  match (fetch_usage w.codexUsageUrl w.usageResp access_token2 account_id).2 with
  | .error e => (.error e, ops)
  | .ok usage =>
  let presented : Except PyErr Payload := do
    let rateLimitRaw ← usage.get "rate_limit"
    let rate_limit := orEmptyObj rateLimitRaw
    let primaryRaw ← rate_limit.get "primary_window"
    let primary := orEmptyObj primaryRaw
    let secondaryRaw ← rate_limit.get "secondary_window"
    let secondary := orEmptyObj secondaryRaw
    let daily_percent ← primary.get "used_percent"
    let weekly_percent ← secondary.get "used_percent"
    let daily_reset ← primary.get "reset_at"
    let weekly_reset ← secondary.get "reset_at"
    let daily_text ← percent_text daily_percent
    let weekly_text ← percent_text weekly_percent
    let text := "D " ++ daily_text ++ " · W " ++ weekly_text
    let top_percent ← top_percent_loop [daily_percent, weekly_percent]
    let tooltip_lines := [
      "Daily used: " ++ daily_text,
      "Daily reset: " ++ format_reset w.tzOffset daily_reset ++
        " (" ++ format_eta w.now daily_reset ++ ")",
      "Weekly used: " ++ weekly_text,
      "Weekly reset: " ++ format_reset w.tzOffset weekly_reset ++
        " (" ++ format_eta w.now weekly_reset ++ ")",
      "Updated: " ++ formatYmdHm (qFloor w.now + w.tzOffset)]
    let tooltip := String.intercalate "\r" tooltip_lines
    let klass ← class_for top_percent
    let percentage ← percentage_value top_percent
    pure ⟨text, tooltip, klass, percentage, "codex"⟩
  (presented, ops)

/-- `main()`: codexbar always emits exactly one payload; the outer
`except` handlers turn any `HTTPError` or other exception into an error
payload. -/
def main (w : World) : Payload × List FsOp :=
  match main_attempt w with
  | (.ok p, ops) => (p, ops)
  | (.error (.httpError c), ops) =>
      (⟨"Codex --", "HTTP error: " ++ toString c, "error", 0, "codex"⟩, ops)
  | (.error e, ops) =>
      (⟨"Codex --", "Error: " ++ e.text, "error", 0, "codex"⟩, ops)

end Codexbar

/-- A fully healthy codexbar/limitsbar Codex pipeline: fresh
`last_refresh` (no refresh), both windows present. -/
def wCodexHealthy : World :=
  { home := "/home/u"
    now := 1770000000
    codexAuth := some (.ok (.obj [
      ("tokens", .obj [("access_token", .str "tok"), ("account_id", .str "acct")]),
      ("last_refresh", .str "2026-02-01T00:00:00+00:00")]))
    usageResp := .ok (.ok (.obj [("rate_limit", .obj [
      ("primary_window", .obj [("used_percent", .num 45), ("reset_at", .num 1770005400)]),
      ("secondary_window", .obj [("used_percent", .num 10), ("reset_at", .num 1770100000)])])])) }

example : (Codexbar.main wCodexHealthy).1.text = "D 45% · W 10%" := by decide
example : (Codexbar.main wCodexHealthy).1.klass = "ok" := by decide
example : (Codexbar.main wCodexHealthy).1.percentage = 45 := by decide
example : (Codexbar.main wCodexHealthy).2 = [] := by decide
example : (Codexbar.main { home := "/home/u", now := 1770000000 }).1
    = ⟨"Codex --", "Error: auth.json not found at /home/u/.codex/auth.json", "error", 0, "codex"⟩ := by
  decide

/-- Python `max(xs)` on a list, raising on an empty one. -/
def pyMax : List JVal → Except PyErr JVal
  | [] => .error (.valueError "max() arg is an empty sequence")
  | x :: rest => pyMaxFrom x rest

/-- f-string rendering of a `str`-or-`None` variable. -/
def optStr : Option String → String
  | some s => s
  | none => "None"

/-! ### limitsbar.py -/

namespace Limitsbar

def AUTH_REFRESH_INTERVAL_SECONDS : Nat := 8 * 24 * 60 * 60

def DEFAULT_USAGE_URL : String := "https://chatgpt.com/backend-api/wham/usage"

def REFRESH_URL : String := "https://auth.openai.com/oauth/token"

def REFRESH_CLIENT_ID : String := "app_EMoamEEZ73f0CkXaXp7hrann"

def ICON_FIVE_HOUR : String := "󱑁"

def ICON_WEEKLY : String := "󰃭"

def ICON_UNAVAILABLE : String := "󰅚"

/-- `_parse_iso8601(value)` (limitsbar's copy). -/
def parse_iso8601 (value : JVal) : Option ℚ :=
  if !value.truthy then none
  else
    match value with
    | .str s =>
        fromisoformat (if s.data.getLast? == some 'Z'
          then String.mk s.data.dropLast ++ "+00:00" else s)
    | _ => none

/-- `_auth_path()` (limitsbar's copy). -/
def auth_path (home : String) (codexHome : Option String) : String :=
  let ch := codexHome.getD ""
  if ch ≠ "" then pathJoin ch "auth.json"
  else pathJoin (pathJoin home ".codex") "auth.json"

/-- `_read_auth()` (limitsbar's copy). -/
def read_auth (w : World) : Except PyErr (JVal × String) :=
  let path := auth_path w.home w.codexHome
  match w.codexAuth with
  | none => .error (.fileNotFound ("auth.json not found at " ++ path))
  | some (.error m) => .error (.jsonDecode m)
  | some (.ok v) => .ok (v, path)

/-- `_write_auth(path, data)` (limitsbar's copy). -/
def write_auth (path : String) (data : JVal) : List FsOp :=
  [.write (path ++ ".tmp") data, .replace (path ++ ".tmp") path]

/-- `_needs_refresh(last_refresh)` (limitsbar's copy). -/
def needs_refresh (now : ℚ) (last_refresh : Option ℚ) : Bool :=
  match last_refresh with
  | none => true
  | some t => decide ((AUTH_REFRESH_INTERVAL_SECONDS : ℚ) < qSub now t)

/-- `_refresh_tokens(refresh_token)` (limitsbar's copy). -/
def refresh_tokens (resp : HttpResp) (refresh_token : JVal) :
    Request × Except PyErr JVal :=
  let payload : JVal := .obj [("client_id", .str REFRESH_CLIENT_ID),
    ("grant_type", .str "refresh_token"),
    ("refresh_token", refresh_token),
    ("scope", .str "openid profile email")]
  let req : Request := ⟨REFRESH_URL, "POST", [("Content-Type", "application/json")], some payload⟩
  (req,
    match resp with
    | .httpError c => .error (.httpError c)
    | .netError m => .error (.netError m)
    | .ok (.error m) => .error (.jsonDecode m)
    | .ok (.ok v) => .ok v)

/-- `_fetch_usage(access_token, account_id)` (limitsbar's copy). -/
def fetch_usage (usageUrlEnv : Option String) (resp : HttpResp)
    (access_token : JVal) (account_id : JVal) : Request × Except PyErr JVal :=
  let url := usageUrlEnv.getD DEFAULT_USAGE_URL
  let headers := [("Authorization", "Bearer " ++ pyStr access_token),
    ("User-Agent", "codex-cli"), ("Accept", "application/json")]
  let headers := if account_id.truthy
    then headers ++ [("ChatGPT-Account-Id", pyStr account_id)] else headers
  let req : Request := ⟨url, "GET", headers, none⟩
  (req,
    match resp with
    | .httpError c => .error (.httpError c)
    | .netError m => .error (.netError m)
    | .ok (.error m) => .error (.jsonDecode m)
    | .ok (.ok v) => .ok v)

/-- `_format_reset(ts)` (limitsbar's copy). -/
def format_reset (tzOffset : Int) (ts : JVal) : String :=
  if !ts.truthy then "unknown"
  else
    match pyIntOf ts with
    | .error _ => "unknown"
    | .ok t =>
        if !tsInRange t then "unknown"
        else formatYmdHm (t + tzOffset)

/-- `_format_eta(ts)` (limitsbar's copy). -/
def format_eta (now : ℚ) (ts : JVal) : String :=
  if !ts.truthy then "unknown"
  else
    match pyIntOf ts with
    | .error _ => "unknown"
    | .ok t =>
        if !tsInRange t then "unknown"
        else
          let total : Int := pyTrunc (qSub (t : ℚ) now)
          if total ≤ 0 then "now"
          else
            toString (Int.fdiv total 3600) ++ "h " ++
              toString (Int.fdiv (Int.fmod total 3600) 60) ++ "m"

/-- `_format_reset_dt(dt)`: the `(reset, eta)` string pair for an
optional already-parsed datetime. -/
def format_reset_dt (now : ℚ) (tzOffset : Int) (dt : Option ℚ) : String × String :=
  match dt with
  | none => ("unknown", "unknown")
  | some q =>
      let ts : Int := pyTrunc q
      (format_reset tzOffset (.num (ts : ℚ)), format_eta now (.num (ts : ℚ)))

/-- `_class_for(percent)` (limitsbar's copy). -/
def class_for (percent : Option JVal) : Except PyErr String :=
  match percent with
  | none => .ok "unknown"
  | some p => do
      if (← pyGe p (.num 90)) then pure "critical"
      else if (← pyGe p (.num 70)) then pure "warn"
      else pure "ok"

/-- `_emit(payload)` (limitsbar's copy). -/
def emit (p : Payload) : String :=
  "\x7b\"text\":" ++ jsonQuote p.text ++ ",\"tooltip\":" ++ jsonQuote p.tooltip ++
    ",\"class\":" ++ jsonQuote p.klass ++ ",\"percentage\":" ++ toString p.percentage ++
    ",\"alt\":" ++ jsonQuote p.alt ++ "\x7d"

end Limitsbar

/-- The status dict `_get_claude_status` returns on success. -/
structure ClaudeStatus where
  session_percent : Option Int
  week_percent : Option Int
  session_reset : Option ℚ
  week_reset : Option ℚ
deriving DecidableEq, Repr

/-- The status dict `_get_codex_status` returns on success; values are
the raw JSON window fields (`JVal.null` models Python `None`). -/
structure CodexStatus where
  daily_percent : JVal
  weekly_percent : JVal
  daily_reset : JVal
  weekly_reset : JVal
deriving DecidableEq, Repr

namespace Limitsbar

/-- `_claude_credentials_path()`. -/
def claude_credentials_path (home : String) : String :=
  pathJoin (pathJoin home ".claude") ".credentials.json"

/-- `_read_claude_credentials()`: raises `FileNotFoundError` when the
file is missing, `json.JSONDecodeError` on invalid JSON, and
`AttributeError` when the document is not a dict. -/
def read_claude_credentials (w : World) : Except PyErr (JVal × String) :=
  let path := claude_credentials_path w.home
  match w.claudeCreds with
  | none => .error (.fileNotFound "Claude credentials not found")
  | some (.error m) => .error (.jsonDecode m)
  | some (.ok data) => do
      let innerRaw ← data.get "claudeAiOauth"
      pure (orEmptyObj innerRaw, path)

/-- `_parse_claude_resets(value)`. -/
def parse_claude_resets (value : JVal) : Option ℚ :=
  if !value.truthy then none
  else parse_iso8601 value

/-- `_claude_usage_percent(utilization)` on the raw JSON value: `None`
for an absent or unconvertible value, else the dual-scale rounding. -/
def claude_usage_percent (utilization : JVal) : Option Int :=
  match utilization with
  | .null => none
  | .num val =>
      if val ≤ 1 then some (pyRound (qMul val 100)) else some (pyRound val)
  | .bool b =>
      let val : ℚ := if b then 1 else 0
      if val ≤ 1 then some (pyRound (qMul val 100)) else some (pyRound val)
  | .str s =>
      match floatOfString s with
      | none => none
      | some val =>
          if val ≤ 1 then some (pyRound (qMul val 100)) else some (pyRound val)
  | _ => none

/-- Validity of `expires_at / 1000` for `fromtimestamp` (yearly range
1..9999); outside it CPython raises, uncaught here. -/
def expTsInRange (t : ℚ) : Bool :=
  decide ((-62135596800 : ℚ) ≤ t) && decide (t < 253402300800)

/-- `_get_claude_status()`: the `(status, error)` pair, or the exception
escaping it — only `FileNotFoundError` around the credentials read and
the usage request's failures are caught. -/
def get_claude_status (w : World) : Except PyErr (Option ClaudeStatus × Option String) :=
  match read_claude_credentials w with
  | .error (.fileNotFound _) =>
      .ok (none, some "Claude credentials not found (run `claude login`)")
  | .error e => .error e
  | .ok (cred, _path) => do
      let access ← cred.get "accessToken"
      let scopesRaw ← cred.get "scopes"
      let scopes := orEmptyArr scopesRaw
      let expires_at ← cred.get "expiresAt"
      if !access.truthy then pure (none, some "Claude access token missing")
      else do
      let inScope ← pyIn (.str "user:profile") scopes
      if !inScope then pure (none, some "Claude token missing user:profile scope")
      else do
      let expired : Except PyErr Bool :=
        match expires_at.asNum? with
        | some q =>
            if 0 < q then
              let exp := qDiv q 1000
              if !expTsInRange exp then .error (.valueError "year is out of range")
              else .ok (decide (exp ≤ w.now))
            else .ok false
        | none => .ok false
      match expired with
      | .error e => .error e
      | .ok true => pure (none, some "Claude token expired (run `claude login`)")
      | .ok false =>
      match w.claudeUsageResp with
      | .httpError c => pure (none, some ("Claude HTTP error: " ++ toString c))
      | .netError m => pure (none, some ("Claude error: " ++ m))
      | .ok (.error m) => pure (none, some ("Claude error: " ++ m))
      | .ok (.ok data) => do
          let fiveRaw ← data.get "five_hour"
          let five_hour := orEmptyObj fiveRaw
          let sevenRaw ← data.get "seven_day"
          let seven_day := orEmptyObj sevenRaw
          let u1 ← five_hour.get "utilization"
          let session_percent := claude_usage_percent u1
          let u2 ← seven_day.get "utilization"
          let week_percent := claude_usage_percent u2
          let r1 ← five_hour.get "resets_at"
          let session_reset := parse_claude_resets r1
          let r2 ← seven_day.get "resets_at"
          let week_reset := parse_claude_resets r2
          if session_percent.isNone && week_percent.isNone then
            pure (none, some "Claude usage unavailable")
          else
            pure (some ⟨session_percent, week_percent, session_reset, week_reset⟩, none)

/-- The conditional refresh block of `_get_codex_status` (limitsbar's
copy of the same lines). -/
def refresh_block (now : ℚ) (resp : HttpResp) (auth tokens access_token refresh_token : JVal)
    (last_refresh : Option ℚ) (path : String) : Except PyErr (JVal × List FsOp) :=
  if refresh_token.truthy && needs_refresh now last_refresh then
    match (refresh_tokens resp refresh_token).2 with
    | .error e => .error e
    | .ok refreshed =>
      match refreshed.getD "access_token" access_token with
      | .error e => .error e
      | .ok a1 =>
      match tokens.set "access_token" a1 with
      | .error e => .error e
      | .ok tokens1 =>
      match refreshed.getD "refresh_token" refresh_token with
      | .error e => .error e
      | .ok r1 =>
      match tokens1.set "refresh_token" r1 with
      | .error e => .error e
      | .ok tokens2 =>
      match refreshed.get "id_token" with
      | .error e => .error e
      | .ok idt =>
      match (if idt.truthy then tokens2.set "id_token" idt else .ok tokens2) with
      | .error e => .error e
      | .ok tokens3 =>
      match auth.set "tokens" tokens3 with
      | .error e => .error e
      | .ok auth1 =>
      match auth1.set "last_refresh" (.str (isoformatZ now)) with
      | .error e => .error e
      | .ok auth2 =>
      match tokens3.get "access_token" with
      | .error e => .error e
      | .ok a2 => .ok (a2, write_auth path auth2)
  else .ok (access_token, [])

/-- The body of `_get_codex_status`'s `try`: `.ok (none, some msg)` is
the early `return None, msg` path, `.error e` an exception flowing to
the `except` clauses. -/
def get_codex_status_attempt (w : World) :
    Except PyErr (Option CodexStatus × Option String) × List FsOp :=
  match read_auth w with
  | .error e => (.error e, [])
  | .ok (auth, path) =>
  match auth.get "tokens" with
  | .error e => (.error e, [])
  | .ok tokensRaw =>
  let tokens := orEmptyObj tokensRaw
  match tokens.get "access_token" with
  | .error e => (.error e, [])
  | .ok access_token =>
  match tokens.get "refresh_token" with
  | .error e => (.error e, [])
  | .ok refresh_token =>
  match tokens.get "account_id" with
  | .error e => (.error e, [])
  | .ok account_id =>
  if !access_token.truthy then
    (.ok (none, some "Codex auth.json missing access token"), [])
  else
  match auth.get "last_refresh" with
  | .error e => (.error e, [])
  | .ok lastRefreshRaw =>
  let last_refresh := parse_iso8601 lastRefreshRaw
  let afterRefresh := refresh_block w.now w.refreshResp auth tokens access_token
    refresh_token last_refresh path
  match afterRefresh with
  | .error e => (.error e, [])
  | .ok (access_token2, ops) =>
  match (fetch_usage w.codexUsageUrl w.usageResp access_token2 account_id).2 with
  | .error e => (.error e, ops)
  | .ok usage =>
  let snapped : Except PyErr (Option CodexStatus × Option String) := do
    let rateLimitRaw ← usage.get "rate_limit"
    let rate_limit := orEmptyObj rateLimitRaw
    let primaryRaw ← rate_limit.get "primary_window"
    let primary := orEmptyObj primaryRaw
    let secondaryRaw ← rate_limit.get "secondary_window"
    let secondary := orEmptyObj secondaryRaw
    let daily_percent ← primary.get "used_percent"
    let weekly_percent ← secondary.get "used_percent"
    let daily_reset ← primary.get "reset_at"
    let weekly_reset ← secondary.get "reset_at"
    pure (some ⟨daily_percent, weekly_percent, daily_reset, weekly_reset⟩, none)
  (snapped, ops)

/-- `_get_codex_status()`: total — the `except` clauses turn every
exception into an error message for this account only. -/
def get_codex_status (w : World) : (Option CodexStatus × Option String) × List FsOp :=
  match get_codex_status_attempt w with
  | (.ok r, ops) => (r, ops)
  | (.error (.fileNotFound _), ops) =>
      ((none, some "Codex auth.json not found (run `codex login`)"), ops)
  | (.error (.httpError c), ops) =>
      ((none, some ("Codex HTTP error: " ++ toString c)), ops)
  | (.error e, ops) => ((none, some ("Codex error: " ++ e.text)), ops)

/-- `"--" if p is None else f"{int(p)}%"`, as inlined in `main`. -/
def percent_text (p : JVal) : Except PyErr String :=
  if p == JVal.null then pure "--"
  else do
    let n ← pyIntOf p
    pure (toString n ++ "%")

/-- `int(top_percent) if top_percent is not None else 0` in `main`. -/
def percentage_value (top : Option JVal) : Except PyErr Int :=
  match top with
  | none => .ok 0
  | some v => pyIntOf v

/-- `main()`: the payload limitsbar emits — or the exception escaping
`main`, which has no outer handler — plus the write trace. -/
def main (w : World) : Except PyErr Payload × List FsOp :=
  let (codexPair, ops) := get_codex_status w
  match get_claude_status w with
  | .error e => (.error e, ops)
  | .ok (claude, claude_err) =>
      let (codex, codex_err) := codexPair
      let built : Except PyErr Payload := do
        let (codexParts, codexPercents, codexLines) ←
          match codex with
          | some c => do
              let d := c.daily_percent
              let wv := c.weekly_percent
              let percents := (if d == JVal.null then [] else [d]) ++
                (if wv == JVal.null then [] else [wv])
              let d_text ← percent_text d
              let w_text ← percent_text wv
              pure ([ "Codex " ++ ICON_FIVE_HOUR ++ " " ++ d_text ++ " " ++
                  ICON_WEEKLY ++ " " ++ w_text ], percents,
                ["Codex — 5h: " ++ d_text ++ " (resets " ++
                    format_reset w.tzOffset c.daily_reset ++ ", " ++
                    format_eta w.now c.daily_reset ++ ")",
                 "Codex — Weekly: " ++ w_text ++ " (resets " ++
                    format_reset w.tzOffset c.weekly_reset ++ ", " ++
                    format_eta w.now c.weekly_reset ++ ")"])
          | none =>
              pure (["Codex " ++ ICON_UNAVAILABLE], ([] : List JVal),
                ["Codex — Not available (" ++ optStr codex_err ++ ")"])
        let (claudeParts, claudePercents, claudeLines) ←
          match claude with
          | some c => do
              let sElems : List JVal :=
                match c.session_percent with
                | some n => [.num (n : ℚ)]
                | none => []
              let wElems : List JVal :=
                match c.week_percent with
                | some n => [.num (n : ℚ)]
                | none => []
              let s_text :=
                match c.session_percent with
                | some n => toString n ++ "%"
                | none => "--"
              let w_text :=
                match c.week_percent with
                | some n => toString n ++ "%"
                | none => "--"
              let sr := format_reset_dt w.now w.tzOffset c.session_reset
              let wr := format_reset_dt w.now w.tzOffset c.week_reset
              pure ([ "Claude " ++ ICON_FIVE_HOUR ++ " " ++ s_text ++ " " ++
                  ICON_WEEKLY ++ " " ++ w_text ], sElems ++ wElems,
                ["Claude — 5h: " ++ s_text ++ " (resets " ++ sr.1 ++ ", " ++ sr.2 ++ ")",
                 "Claude — Weekly: " ++ w_text ++ " (resets " ++ wr.1 ++ ", " ++ wr.2 ++ ")"])
          | none =>
              pure (["Claude " ++ ICON_UNAVAILABLE], ([] : List JVal),
                ["Claude — Not available (" ++ optStr claude_err ++ ")"])
        let tooltip_lines := ["AI Limits", ""] ++ codexLines ++ [""] ++ claudeLines ++
          ["", "Updated: " ++ formatYmdHm (qFloor w.now + w.tzOffset),
            "Refresh: every 5 minutes"]
        let parts := codexParts ++ claudeParts
        let percents := codexPercents ++ claudePercents
        let text := String.intercalate "  |  " parts
        let top_percent ← (if percents.isEmpty then pure (none : Option JVal)
          else do
            let m ← pyMax percents
            pure (some m))
        let klass ← class_for top_percent
        let percentage ← percentage_value top_percent
        pure ⟨text, String.intercalate "\r" tooltip_lines, klass, percentage, "ai-limits"⟩
      (built, ops)

end Limitsbar

/-- Both accounts healthy: Codex daily 45 / weekly 10, Claude session
utilization 0.88 / week 0.05. -/
def wBothHealthy : World :=
  { wCodexHealthy with
    claudeCreds := some (.ok (.obj [("claudeAiOauth", .obj [
      ("accessToken", .str "ct"),
      ("scopes", .arr [.str "user:profile"]),
      ("expiresAt", .num 1900000000000)])]))
    claudeUsageResp := .ok (.ok (.obj [
      ("five_hour", .obj [("utilization", .num (mkRat 22 25)),
        ("resets_at", .str "2026-02-04T12:00:00+00:00")]),
      ("seven_day", .obj [("utilization", .num (mkRat 1 20)),
        ("resets_at", .str "2026-02-08T00:00:00+00:00")])])) }

/-- Codex healthy but its usage response carries a non-numeric
`used_percent`; Claude credentials absent. -/
def wBadUsedPercent : World :=
  { wCodexHealthy with
    usageResp := .ok (.ok (.obj [("rate_limit", .obj [
      ("primary_window", .obj [("used_percent", .str "abc")])])])) }

/-- Codex fully healthy while the Claude credentials file exists but is
not valid JSON. -/
def wClaudeBadJson : World :=
  { wBothHealthy with
    claudeCreds := some (.error "Expecting value: line 1 column 1 (char 0)") }

example : (Limitsbar.main wBothHealthy).1.isOk = true := by decide
example : ((Limitsbar.main wBothHealthy).1.map Payload.klass) = .ok "warn" := by decide
example : ((Limitsbar.main wBothHealthy).1.map Payload.percentage) = .ok 88 := by decide
example : (Limitsbar.main wBadUsedPercent).1.isOk = false := by decide
example : (Limitsbar.main wClaudeBadJson).1.isOk = false := by decide
example : ((Limitsbar.get_codex_status wClaudeBadJson).1.1.map CodexStatus.daily_percent)
    = some (.num 45) := by decide

example : Codexbar.needs_refresh 1770000000 none = true := by decide

/-! ### Claims -/

/-- C2: for every percentage value `p` with `0 ≤ p < 100` the severity
classification returns `"ok"` if `p < 70`, `"warn"` if `70 ≤ p < 90`
and `"critical"` if `p ≥ 90`, and returns `"unknown"` on the absent
value `None` — in both scripts' `_class_for`. -/
theorem C2_class_for (p : ℚ) (h0 : 0 ≤ p) (h1 : p < 100) :
    (p < 70 → Codexbar.class_for (some (.num p)) = .ok "ok")
    ∧ (70 ≤ p → p < 90 → Codexbar.class_for (some (.num p)) = .ok "warn")
    ∧ (90 ≤ p → Codexbar.class_for (some (.num p)) = .ok "critical")
    ∧ Codexbar.class_for none = .ok "unknown"
    ∧ Limitsbar.class_for (some (.num p)) = Codexbar.class_for (some (.num p))
    ∧ Limitsbar.class_for none = .ok "unknown" := by
  refine ⟨fun h => ?_, fun h h' => ?_, fun h => ?_, rfl, rfl, rfl⟩
  · have h90 : decide ((90 : ℚ) ≤ p) = false :=
      decide_eq_false (not_le.mpr (h.trans (by norm_num)))
    have h70 : decide ((70 : ℚ) ≤ p) = false := decide_eq_false (not_le.mpr h)
    simp [Codexbar.class_for, pyGe, JVal.asNum?, h90, h70, Except.bind, bind, pure, Except.pure]
  · have h90 : decide ((90 : ℚ) ≤ p) = false := decide_eq_false (not_le.mpr h')
    have h70 : decide ((70 : ℚ) ≤ p) = true := decide_eq_true h
    simp [Codexbar.class_for, pyGe, JVal.asNum?, h90, h70, Except.bind, bind, pure, Except.pure]
  · have h90 : decide ((90 : ℚ) ≤ p) = true := decide_eq_true h
    simp [Codexbar.class_for, pyGe, JVal.asNum?, h90, Except.bind, bind, pure, Except.pure]

/-- C2 witness at `p = 75`. -/
theorem C2_class_for_witness :
    Codexbar.class_for (some (.num 75)) = .ok "warn" :=
  (C2_class_for 75 (by norm_num) (by norm_num)).2.1 (by norm_num) (by norm_num)

/-- C5: the staleness predicate is true exactly when no refresh
timestamp is recorded or the elapsed time strictly exceeds
`8*24*60*60` seconds; `now - 9` days triggers a refresh and `now - 7`
days does not — in both scripts' `_needs_refresh`. -/
theorem C5_needs_refresh (now t : ℚ) :
    Codexbar.needs_refresh now none = true
    ∧ (Codexbar.needs_refresh now (some t) = true ↔ (8 * 24 * 60 * 60 : ℚ) < now - t)
    ∧ Codexbar.needs_refresh now (some (now - 9 * 86400)) = true
    ∧ Codexbar.needs_refresh now (some (now - 7 * 86400)) = false
    ∧ Limitsbar.needs_refresh now (some t) = Codexbar.needs_refresh now (some t)
    ∧ Limitsbar.needs_refresh now none = true := by
  have key : ∀ s : ℚ, Codexbar.needs_refresh now (some s)
      = decide ((8 * 24 * 60 * 60 : ℚ) < now - s) := by
    intro s
    simp only [Codexbar.needs_refresh, qSub_eq, Codexbar.AUTH_REFRESH_INTERVAL_SECONDS]
    norm_num
  refine ⟨rfl, ?_, ?_, ?_, rfl, rfl⟩
  · rw [key, decide_eq_true_iff]
  · rw [key]
    norm_num
  · rw [key]
    norm_num

/-- C6: `_claude_usage_percent` maps a numeric utilization `v ≤ 1` to
`round(v * 100)` and `v > 1` to `round(v)` (Python's round half to
even), maps the absent value to `None`, and in particular `0.42 ↦ 42`
and `87 ↦ 87`. -/
theorem C6_claude_usage_percent (v : ℚ) :
    (v ≤ 1 → Limitsbar.claude_usage_percent (.num v) = some (pyRound (v * 100)))
    ∧ (1 < v → Limitsbar.claude_usage_percent (.num v) = some (pyRound v))
    ∧ Limitsbar.claude_usage_percent .null = none
    ∧ (mkRat 21 50 : ℚ) = 0.42
    ∧ Limitsbar.claude_usage_percent (.num (mkRat 21 50)) = some 42
    ∧ Limitsbar.claude_usage_percent (.num 87) = some 87 := by
  refine ⟨fun h => ?_, fun h => ?_, rfl, ?_, by decide, by decide⟩
  · simp [Limitsbar.claude_usage_percent, h, qMul_eq]
  · simp [Limitsbar.claude_usage_percent, not_le.mpr h, qMul_eq]
  · rw [Rat.mkRat_eq_div]
    norm_num

theorem pyTrunc_intCast (n : Int) : pyTrunc ((n : ℚ)) = n := by
  simp [pyTrunc, Rat.num_intCast, Rat.den_intCast, Int.tdiv_one]

/-- C7 counterexample: the timestamp `0` is present, parseable and in
the past of `now = 1770000000`, yet `_format_eta` renders `"unknown"`
rather than `"now"`, because `0` is falsy in Python. -/
theorem C7_counterexample :
    Codexbar.format_eta 1770000000 (.num 0) = "unknown"
    ∧ Limitsbar.format_eta 1770000000 (.num 0) = "unknown"
    ∧ "unknown" ≠ "now"
    ∧ pyTrunc ((0 : ℚ) - 1770000000) ≤ 0 := by
  refine ⟨by decide, by decide, by decide, ?_⟩
  have e : (0 : ℚ) - 1770000000 = ((-1770000000 : Int) : ℚ) := by norm_num
  rw [e, pyTrunc_intCast]
  decide

/-- C7 (amended): for every present, parseable, nonzero integer
epoch-seconds timestamp `t` (within `fromtimestamp`'s year range), the
ETA is `"{h}h {m}m"` by floor division of `t - now` when that
difference is positive, and `"now"` when it is non-positive; an absent
timestamp renders `"unknown"`.  A zero timestamp is the exception the
counterexample forces: it is treated like an absent one. -/
theorem C7_format_eta (now : ℚ) (t : Int) (hnz : t ≠ 0) (hr : tsInRange t = true) :
    (pyTrunc ((t : ℚ) - now) ≤ 0 → Codexbar.format_eta now (.num (t : ℚ)) = "now")
    ∧ (0 < pyTrunc ((t : ℚ) - now) →
        Codexbar.format_eta now (.num (t : ℚ)) =
          toString (Int.fdiv (pyTrunc ((t : ℚ) - now)) 3600) ++ "h " ++
            toString (Int.fdiv (Int.fmod (pyTrunc ((t : ℚ) - now)) 3600) 60) ++ "m")
    ∧ Codexbar.format_eta now JVal.null = "unknown"
    ∧ Limitsbar.format_eta now (.num (t : ℚ)) = Codexbar.format_eta now (.num (t : ℚ)) := by
  have htr : (JVal.num (t : ℚ)).truthy = true := by
    simp [JVal.truthy, bne_iff_ne]
    exact_mod_cast hnz
  have e1 : Codexbar.format_eta now (.num (t : ℚ)) =
      (if pyTrunc ((t : ℚ) - now) ≤ 0 then "now"
        else toString (Int.fdiv (pyTrunc ((t : ℚ) - now)) 3600) ++ "h " ++
          toString (Int.fdiv (Int.fmod (pyTrunc ((t : ℚ) - now)) 3600) 60) ++ "m") := by
    simp [Codexbar.format_eta, htr, pyIntOf, pyTrunc_intCast, hr, qSub_eq]
  refine ⟨fun h => ?_, fun h => ?_, rfl, rfl⟩
  · rw [e1, if_pos h]
  · rw [e1, if_neg (not_le.mpr h)]

/-- C7 witness: a timestamp 90 minutes (5400 s) in the future renders
`"1h 30m"`, and one in the past renders `"now"`. -/
theorem C7_format_eta_witness :
    Codexbar.format_eta 1770000000 (.num ((1770005400 : Int) : ℚ)) = "1h 30m"
    ∧ Codexbar.format_eta 1770000000 (.num ((100 : Int) : ℚ)) = "now" := by
  have e : ((1770005400 : Int) : ℚ) - 1770000000 = ((5400 : Int) : ℚ) := by norm_num
  have h1 := (C7_format_eta 1770000000 1770005400 (by decide) (by decide)).2.1
    (by rw [e, pyTrunc_intCast]; decide)
  rw [e, pyTrunc_intCast] at h1
  have e2 : ((100 : Int) : ℚ) - 1770000000 = ((-1769999900 : Int) : ℚ) := by norm_num
  have h2 := (C7_format_eta 1770000000 100 (by decide) (by decide)).1
    (by rw [e2, pyTrunc_intCast]; decide)
  exact ⟨h1.trans (by decide), h2⟩

theorem pyTrunc_bounds (q : ℚ) (h0 : 0 ≤ q) (h1 : q ≤ 100) :
    0 ≤ pyTrunc q ∧ pyTrunc q ≤ 100 := by
  have hnum : 0 ≤ q.num := Rat.num_nonneg.mpr h0
  have heq : pyTrunc q = ⌊q⌋ := by
    rw [pyTrunc, Rat.floor_def, Int.tdiv_eq_ediv hnum (Int.natCast_nonneg _)]
  constructor
  · rw [heq]
    exact Int.le_floor.mpr (by exact_mod_cast h0)
  · rw [heq]
    have := Int.floor_le_floor h1
    simpa using this

/-- The boundedness invariant of the running maximum: absent, or a
number in `[0, 100]`. -/
def BoundedTop : Option JVal → Prop
  | none => True
  | some v => ∃ q : ℚ, v = .num q ∧ 0 ≤ q ∧ q ≤ 100

theorem top_fold_bounded (ps : List JVal) :
    ∀ top, (∀ v ∈ ps, v = .null ∨ ∃ q : ℚ, v = .num q ∧ 0 ≤ q ∧ q ≤ 100) →
      BoundedTop top →
      ∃ t, Codexbar.top_percent_fold top ps = .ok t ∧ BoundedTop t := by
  induction ps with
  | nil => exact fun top _ htop => ⟨top, rfl, htop⟩
  | cons v rest ih =>
      intro top hmem htop
      rcases hmem v (by simp) with hv | ⟨q, hq, hq0, hq1⟩
      · subst hv
        simpa [Codexbar.top_percent_fold] using
          ih top (fun x hx => hmem x (by simp [hx])) htop
      · subst hq
        match top, htop with
        | none, _ =>
            simpa [Codexbar.top_percent_fold] using
              ih (some (.num q)) (fun x hx => hmem x (by simp [hx])) ⟨q, rfl, hq0, hq1⟩
        | some t, ⟨qt, hqt, hqt0, hqt1⟩ =>
            subst hqt
            have := ih (if decide (qt < q) then some (.num q) else some (.num qt))
              (fun x hx => hmem x (by simp [hx]))
              (by
                by_cases hlt : qt < q
                · simp only [decide_eq_true hlt, if_true]
                  exact ⟨q, rfl, hq0, hq1⟩
                · simp only [decide_eq_false hlt, if_false]
                  exact ⟨qt, rfl, hqt0, hqt1⟩)
            simpa [Codexbar.top_percent_fold, pyGt, JVal.asNum?, bind, Except.bind]
              using this

theorem pyMaxFrom_bounded (ps : List JVal) :
    ∀ cur, (∀ v ∈ ps, ∃ q : ℚ, v = .num q ∧ 0 ≤ q ∧ q ≤ 100) →
      (∃ q : ℚ, cur = .num q ∧ 0 ≤ q ∧ q ≤ 100) →
      ∃ m, pyMaxFrom cur ps = .ok m ∧ ∃ q : ℚ, m = .num q ∧ 0 ≤ q ∧ q ≤ 100 := by
  induction ps with
  | nil => exact fun cur _ hcur => ⟨cur, rfl, hcur⟩
  | cons v rest ih =>
      intro cur hmem hcur
      obtain ⟨q, hq, hq0, hq1⟩ := hmem v (by simp)
      obtain ⟨qc, hqc, hqc0, hqc1⟩ := hcur
      subst hq
      subst hqc
      have := ih (if decide (qc < q) then .num q else .num qc)
        (fun x hx => hmem x (by simp [hx]))
        (by
          by_cases hlt : qc < q
          · simp only [decide_eq_true hlt, if_true]
            exact ⟨q, rfl, hq0, hq1⟩
          · simp only [decide_eq_false hlt, if_false]
            exact ⟨qc, rfl, hqc0, hqc1⟩)
      simpa [pyMaxFrom, pyGt, JVal.asNum?, bind, Except.bind] using this

/-- Codex `used_percent = 150` (above 100) with everything else
healthy. -/
def wUsed150 : World :=
  { wCodexHealthy with
    usageResp := .ok (.ok (.obj [("rate_limit", .obj [
      ("primary_window", .obj [("used_percent", .num 150)])])])) }

/-- C3 counterexample: with the usage endpoint reporting
`used_percent = 150`, both scripts emit `percentage = 150 > 100` — the
value is passed through unclamped. -/
theorem C3_counterexample :
    (Codexbar.main wUsed150).1.percentage = 150
    ∧ ¬((Codexbar.main wUsed150).1.percentage ≤ 100)
    ∧ ((Limitsbar.main wUsed150).1.map Payload.percentage) = .ok 150 := by
  refine ⟨by decide, by decide, by decide⟩

/-- C3 (amended): the top-level `percentage` is the truncated maximum
of the window percentages (0 when none is known), and it lies in
`[0, 100]` whenever every numeric `used_percent` value lies in
`[0, 100]`; values outside that range pass through unclamped. -/
theorem C3_percentage_bounded (ps : List JVal)
    (h : ∀ v ∈ ps, v = .null ∨ ∃ q : ℚ, v = .num q ∧ 0 ≤ q ∧ q ≤ 100) :
    (∃ t n, Codexbar.top_percent_loop ps = .ok t ∧ Codexbar.percentage_value t = .ok n
      ∧ 0 ≤ n ∧ n ≤ 100)
    ∧ Limitsbar.percentage_value none = .ok 0
    ∧ ((∀ v ∈ ps, v ≠ .null) → ps ≠ [] →
        ∃ m n, pyMax ps = .ok m ∧ Limitsbar.percentage_value (some m) = .ok n
          ∧ 0 ≤ n ∧ n ≤ 100) := by
  refine ⟨?_, rfl, ?_⟩
  · obtain ⟨t, ht, htop⟩ := top_fold_bounded ps none h trivial
    match t, htop with
    | none, _ =>
        exact ⟨none, 0, ht, rfl, le_refl 0, by norm_num⟩
    | some v, ⟨q, hq, hq0, hq1⟩ =>
        subst hq
        obtain ⟨b0, b1⟩ := pyTrunc_bounds q hq0 hq1
        exact ⟨some (.num q), pyTrunc q, ht,
          by simp [Codexbar.percentage_value, pyIntOf], b0, b1⟩
  · intro hnn hne
    match ps, hne with
    | v :: rest, _ =>
        have hall : ∀ x ∈ v :: rest, ∃ q : ℚ, x = .num q ∧ 0 ≤ q ∧ q ≤ 100 := by
          intro x hx
          rcases h x hx with h0 | h1
          · exact absurd h0 (hnn x hx)
          · exact h1
        obtain ⟨qv, hqv, hv0, hv1⟩ := hall v (by simp)
        obtain ⟨m, hm, q, hq, h0, h1⟩ :=
          pyMaxFrom_bounded rest v (fun x hx => hall x (by simp [hx])) ⟨qv, hqv, hv0, hv1⟩
        subst hq
        obtain ⟨b0, b1⟩ := pyTrunc_bounds q h0 h1
        exact ⟨.num q, pyTrunc q, hm,
          by simp [Limitsbar.percentage_value, pyIntOf], b0, b1⟩

/-- C3 witness for the amended bound at the list `[42, None]`. -/
theorem C3_percentage_bounded_witness :
    ∃ t n, Codexbar.top_percent_loop [.num 42, .null] = .ok t
      ∧ Codexbar.percentage_value t = .ok n ∧ 0 ≤ n ∧ n ≤ 100 :=
  (C3_percentage_bounded [.num 42, .null] (by
    intro v hv
    simp only [List.mem_cons, List.not_mem_nil, or_false] at hv
    rcases hv with rfl | rfl
    · exact Or.inr ⟨42, rfl, by norm_num, by norm_num⟩
    · exact Or.inl rfl)).1

/-- C9: the helper functions duplicated across the two entry points are
extensionally equal — the two embeddings, each translated from its own
file, are equal as functions. -/
theorem C9_shared_helpers_equal :
    Codexbar.parse_iso8601 = Limitsbar.parse_iso8601
    ∧ Codexbar.auth_path = Limitsbar.auth_path
    ∧ Codexbar.read_auth = Limitsbar.read_auth
    ∧ Codexbar.write_auth = Limitsbar.write_auth
    ∧ Codexbar.needs_refresh = Limitsbar.needs_refresh
    ∧ Codexbar.refresh_tokens = Limitsbar.refresh_tokens
    ∧ Codexbar.fetch_usage = Limitsbar.fetch_usage
    ∧ Codexbar.format_reset = Limitsbar.format_reset
    ∧ Codexbar.format_eta = Limitsbar.format_eta
    ∧ Codexbar.class_for = Limitsbar.class_for
    ∧ Codexbar.emit = Limitsbar.emit :=
  ⟨rfl, rfl, rfl, rfl, rfl, rfl, rfl, rfl, rfl, rfl, rfl⟩

/-- C1: evaluation at the failing input.  With a 200 usage response
whose `used_percent` is the JSON string `"abc"` (and the Claude
credential file absent), limitsbar's `main` — which has no outer
handler — lets the `ValueError` from `int("abc")` escape: no payload is
written and the process exits with a traceback, violating the
exactly-one-payload/exit-0 guarantee.  (codexbar wraps its whole body
in `try/except` and is not affected.) -/
theorem C1_limitsbar_uncaught :
    (Limitsbar.main wBadUsedPercent).1
      = .error (.valueError "invalid literal for int with base 10: abc")
    ∧ (Limitsbar.main wBadUsedPercent).1.isOk = false := by
  refine ⟨by decide, by decide⟩

/-- C4: evaluation at the failing input.  With the Codex pipeline fully
healthy but the Claude credentials file containing invalid JSON,
`_read_claude_credentials` raises `json.JSONDecodeError`, which
`_get_claude_status` does not catch (it only catches
`FileNotFoundError`); the exception escapes `main`, so the successful
Codex status is suppressed along with everything else. -/
theorem C4_claude_parse_uncaught :
    (Limitsbar.get_codex_status wClaudeBadJson).1.1
      = some ⟨.num 45, .num 10, .num 1770005400, .num 1770100000⟩
    ∧ (Limitsbar.main wClaudeBadJson).1
      = .error (.jsonDecode "Expecting value: line 1 column 1 (char 0)")
    ∧ (Limitsbar.main wClaudeBadJson).1.isOk = false := by
  refine ⟨by decide, by decide, by decide⟩

/-! ### Crash-step model of the credential write (C8)

`_write_auth` serializes to `path + ".tmp"` and then calls
`os.replace`.  At crash granularity the dump reaches the temp file in
arbitrary chunks; `os.replace` is the file system's atomic rename. -/

/-- A file system: the content at each path. -/
def Fs := String → Option String

/-- One fine-grained step of `_write_auth`. -/
inductive WStep where
  /-- `open(p, "w")`: create or truncate. -/
  | openTrunc (p : String)
  /-- one chunk of the serialized dump reaching the file. -/
  | append (p : String) (chunk : String)
  /-- `os.replace(src, dst)`, a single atomic step. -/
  | rename (src dst : String)

/-- Effect of one step on the file system. -/
def WStep.apply (fs : Fs) : WStep → Fs
  | .openTrunc p => fun q => if q = p then some "" else fs q
  | .append p chunk => fun q => if q = p then some ((fs p).getD "" ++ chunk) else fs q
  | .rename src dst => fun q =>
      if q = dst then fs src else if q = src then none else fs q

/-- Effect of a step sequence, first step first. -/
def applySteps (fs : Fs) : List WStep → Fs
  | [] => fs
  | s :: rest => applySteps (WStep.apply fs s) rest

/-- Concatenation of the dump's chunks: the complete serialized file. -/
def concatChunks : List String → String
  | [] => ""
  | c :: rest => c ++ concatChunks rest

/-- `_write_auth(path, data)` at crash-step granularity. -/
def write_auth_steps (path : String) (chunks : List String) : List WStep :=
  WStep.openTrunc (path ++ ".tmp") ::
    (chunks.map (WStep.append (path ++ ".tmp")) ++

      [WStep.rename (path ++ ".tmp") path])

/-- `os.path.dirname` for paths without a trailing slash. -/
def dirname (p : String) : String :=
  match p.data.reverse.dropWhile (fun c => c != '/') with
  | [] => ""
  | _ :: rest => String.mk rest.reverse

theorem ne_append_tmp (p : String) : p ≠ p ++ ".tmp" := by
  intro h
  have hlen := congrArg String.length h
  rw [String.length_append] at hlen
  have h4 : (".tmp" : String).length = 4 := rfl
  omega

theorem applySteps_append_other (t : String) (cs : List String) :
    ∀ (fs : Fs) (q : String), q ≠ t →
      applySteps fs (cs.map (WStep.append t)) q = fs q := by
  induction cs with
  | nil => intro fs q _; rfl
  | cons c rest ih =>
      intro fs q hq
      simp only [List.map_cons, applySteps]
      rw [ih _ q hq]
      simp [WStep.apply, hq]

theorem applySteps_append_content (t : String) (cs : List String) :
    ∀ (fs : Fs) (s : String), fs t = some s →
      applySteps fs (cs.map (WStep.append t)) t = some (s ++ concatChunks cs) := by
  induction cs with
  | nil =>
      intro fs s hs
      simpa [applySteps, concatChunks] using hs
  | cons c rest ih =>
      intro fs s hs
      simp only [List.map_cons, applySteps, concatChunks]
      rw [ih _ (s ++ c) (by simp [WStep.apply, hs])]
      rw [String.append_assoc]

theorem dirname_append_tmp (p : String) : dirname (p ++ ".tmp") = dirname p := by
  unfold dirname
  have hd : (p ++ ".tmp").data.reverse = ['p', 'm', 't', '.'] ++ p.data.reverse := by
    rw [String.data_append, List.reverse_append]
    rfl
  rw [hd, List.dropWhile_append]
  simp

/-- C8: the credential write is atomic.  Along the whole step sequence
of `_write_auth` the real path holds either its old content or the
complete new serialization — never a partial write; the full sequence
installs the complete content, and the temporary file lives in the same
directory as the real one. -/
theorem applySteps_append (l₁ l₂ : List WStep) :
    ∀ fs, applySteps fs (l₁ ++ l₂) = applySteps (applySteps fs l₁) l₂ := by
  induction l₁ with
  | nil => intro fs; rfl
  | cons s rest ih =>
      intro fs
      simp only [List.cons_append, applySteps]
      exact ih _

theorem write_auth_take_front (path : String) (chunks : List String) (fs₀ : Fs)
    (k : Nat) (hk : k ≤ chunks.length) :
    applySteps fs₀ ((write_auth_steps path chunks).take (k + 1)) path = fs₀ path := by
  have hne : path ≠ path ++ ".tmp" := ne_append_tmp path
  rw [write_auth_steps, List.take_succ_cons,
    List.take_append_of_le_length (by simpa using hk)]
  simp only [applySteps]
  rw [← List.map_take]
  rw [applySteps_append_other _ _ _ _ hne]
  simp [WStep.apply, hne]

theorem write_auth_take_all (path : String) (chunks : List String) (fs₀ : Fs) :
    applySteps fs₀ ((write_auth_steps path chunks).take (chunks.length + 2)) path
      = some (concatChunks chunks) := by
  have hlen : (write_auth_steps path chunks).length = chunks.length + 2 := by
    simp [write_auth_steps]
  rw [show chunks.length + 2 = (write_auth_steps path chunks).length from hlen.symm,
    List.take_length, write_auth_steps]
  simp only [applySteps]
  rw [applySteps_append]
  have hcontent : applySteps (WStep.apply fs₀ (.openTrunc (path ++ ".tmp")))
      (chunks.map (WStep.append (path ++ ".tmp"))) (path ++ ".tmp")
        = some ("" ++ concatChunks chunks) :=
    applySteps_append_content _ _ _ _ (by simp [WStep.apply])
  have step : ∀ fs' : Fs,
      applySteps fs' [WStep.rename (path ++ ".tmp") path] path = fs' (path ++ ".tmp") := by
    intro fs'
    show (if path = path then fs' (path ++ ".tmp")
      else if path = path ++ ".tmp" then none else fs' path) = fs' (path ++ ".tmp")
    rw [if_pos rfl]
  rw [step, hcontent]
  rfl

/-- C8: the credential write is atomic.  Along the whole step sequence
of `_write_auth` the real path holds either its old content or the
complete new serialization — never a partial write; the full sequence
installs the complete content, and the temporary file lives in the same
directory as the real one. -/
theorem C8_write_auth_atomic (path : String) (chunks : List String) (fs₀ : Fs) (n : Nat)
    (hn : n ≤ (write_auth_steps path chunks).length) :
    (applySteps fs₀ ((write_auth_steps path chunks).take n) path = fs₀ path
      ∨ applySteps fs₀ ((write_auth_steps path chunks).take n) path
          = some (concatChunks chunks))
    ∧ (n = (write_auth_steps path chunks).length →
        applySteps fs₀ ((write_auth_steps path chunks).take n) path
          = some (concatChunks chunks))
    ∧ dirname (path ++ ".tmp") = dirname path := by
  have hlen : (write_auth_steps path chunks).length = chunks.length + 2 := by
    simp [write_auth_steps]
  refine ⟨?_, fun hfull => ?_, dirname_append_tmp path⟩
  · cases n with
    | zero => exact Or.inl rfl
    | succ k =>
        by_cases hk : k ≤ chunks.length
        · exact Or.inl (write_auth_take_front path chunks fs₀ k hk)
        · have : k + 1 = chunks.length + 2 := by omega
          rw [this]
          exact Or.inr (write_auth_take_all path chunks fs₀)
  · rw [hfull, hlen]
    exact write_auth_take_all path chunks fs₀

/-- C8 witness at a concrete path, chunk list, empty file system and
the full step count. -/
theorem C8_write_auth_atomic_witness :
    applySteps (fun _ => none) ((write_auth_steps "/h/auth.json" ["ab", "cd"]).take 4)
        "/h/auth.json" = some (concatChunks ["ab", "cd"])
    ∧ dirname ("/h/auth.json" ++ ".tmp") = dirname "/h/auth.json" :=
  ⟨(C8_write_auth_atomic "/h/auth.json" ["ab", "cd"] (fun _ => none) 4 (by decide)).2.1
      (by decide),
    (C8_write_auth_atomic "/h/auth.json" ["ab", "cd"] (fun _ => none) 4 (by decide)).2.2⟩

/-! ### Frame lemmas for the write trace (C10) -/

/-- The paths a file-system operation writes, removes or replaces. -/
def FsOp.touches : FsOp → List String
  | .write p _ => [p]
  | .replace src dst => [src, dst]

/-- The branch condition `refresh_token and _needs_refresh(last_refresh)`
of `_get_codex_status` (equally of codexbar's `main`), together with
the parsing steps that must succeed before it is evaluated; `false`
whenever the run fails or returns earlier (no write happens then
either). -/
def Limitsbar.refresh_taken (w : World) : Bool :=
  match Limitsbar.read_auth w with
  | .error _ => false
  | .ok (auth, _) =>
    match auth.get "tokens" with
    | .error _ => false
    | .ok tokensRaw =>
      let tokens := orEmptyObj tokensRaw
      match tokens.get "access_token" with
      | .error _ => false
      | .ok access_token =>
        match tokens.get "refresh_token" with
        | .error _ => false
        | .ok refresh_token =>
          match tokens.get "account_id" with
          | .error _ => false
          | .ok _ =>
            if !access_token.truthy then false
            else
              match auth.get "last_refresh" with
              | .error _ => false
              | .ok lr =>
                  refresh_token.truthy
                    && Limitsbar.needs_refresh w.now (Limitsbar.parse_iso8601 lr)

theorem refresh_block_ops_shape (now : ℚ) (resp : HttpResp)
    (auth tokens access_token refresh_token : JVal) (last_refresh : Option ℚ)
    (path : String) :
    ∀ x, Limitsbar.refresh_block now resp auth tokens access_token refresh_token
        last_refresh path = .ok x →
      x.2 = [] ∨ ∃ data, x.2 = Limitsbar.write_auth path data := by
  intro x hx
  unfold Limitsbar.refresh_block at hx
  by_cases hc : refresh_token.truthy && Limitsbar.needs_refresh now last_refresh
  · rw [if_pos hc] at hx
    cases hr : (Limitsbar.refresh_tokens resp refresh_token).2 with
    | error e => simp [hr] at hx
    | ok refreshed =>
        simp only [hr] at hx
        cases h1 : refreshed.getD "access_token" access_token with
        | error e => simp [h1] at hx
        | ok a1 =>
        simp only [h1] at hx
        cases h2 : tokens.set "access_token" a1 with
        | error e => simp [h2] at hx
        | ok tokens1 =>
        simp only [h2] at hx
        cases h3 : refreshed.getD "refresh_token" refresh_token with
        | error e => simp [h3] at hx
        | ok r1 =>
        simp only [h3] at hx
        cases h4 : tokens1.set "refresh_token" r1 with
        | error e => simp [h4] at hx
        | ok tokens2 =>
        simp only [h4] at hx
        cases h5 : refreshed.get "id_token" with
        | error e => simp [h5] at hx
        | ok idt =>
        simp only [h5] at hx
        cases h6 : (if idt.truthy then tokens2.set "id_token" idt else .ok tokens2) with
        | error e => simp [h6] at hx
        | ok tokens3 =>
        simp only [h6] at hx
        cases h7 : auth.set "tokens" tokens3 with
        | error e => simp [h7] at hx
        | ok auth1 =>
        simp only [h7] at hx
        cases h8 : auth1.set "last_refresh" (.str (isoformatZ now)) with
        | error e => simp [h8] at hx
        | ok auth2 =>
        simp only [h8] at hx
        cases h9 : tokens3.get "access_token" with
        | error e => simp [h9] at hx
        | ok a2 =>
        simp only [h9, Except.ok.injEq] at hx
        exact Or.inr ⟨auth2, by rw [← hx]⟩
  · rw [if_neg hc] at hx
    simp only [Except.ok.injEq] at hx
    exact Or.inl (by rw [← hx])

theorem refresh_block_not_taken (now : ℚ) (resp : HttpResp)
    (auth tokens access_token refresh_token : JVal) (last_refresh : Option ℚ)
    (path : String)
    (hc : (refresh_token.truthy && Limitsbar.needs_refresh now last_refresh) = false) :
    Limitsbar.refresh_block now resp auth tokens access_token refresh_token
      last_refresh path = .ok (access_token, []) := by
  unfold Limitsbar.refresh_block
  rw [hc]
  rfl

theorem limitsbar_attempt_ops_nil (w : World)
    (h : Limitsbar.refresh_taken w = false) :
    (Limitsbar.get_codex_status_attempt w).2 = [] := by
  unfold Limitsbar.refresh_taken at h
  unfold Limitsbar.get_codex_status_attempt
  cases hra : Limitsbar.read_auth w with
  | error e => simp only [hra]
  | ok pr =>
    obtain ⟨auth, path⟩ := pr
    simp only [hra] at h ⊢
    cases h1 : auth.get "tokens" with
    | error e => simp only [h1]
    | ok tokensRaw =>
      simp only [h1] at h ⊢
      cases h2 : (orEmptyObj tokensRaw).get "access_token" with
      | error e => simp only [h2]
      | ok access_token =>
        simp only [h2] at h ⊢
        cases h3 : (orEmptyObj tokensRaw).get "refresh_token" with
        | error e => simp only [h3]
        | ok refresh_token =>
          simp only [h3] at h ⊢
          cases h4 : (orEmptyObj tokensRaw).get "account_id" with
          | error e => simp only [h4]
          | ok account_id =>
            simp only [h4] at h ⊢
            cases hat : access_token.truthy with
            | false => simp [hat]
            | true =>
              simp only [hat, Bool.not_true, Bool.false_eq_true, if_false] at h ⊢
              cases h5 : auth.get "last_refresh" with
              | error e => simp only [h5]
              | ok lr =>
                simp only [h5] at h ⊢
                have hrb := refresh_block_not_taken w.now w.refreshResp auth
                  (orEmptyObj tokensRaw) access_token refresh_token
                  (Limitsbar.parse_iso8601 lr) path h
                simp only [hrb]
                cases h6 : (Limitsbar.fetch_usage w.codexUsageUrl w.usageResp
                    access_token account_id).2 with
                | error e => simp only [h6]
                | ok usage => simp only [h6]

theorem codexbar_attempt_ops_nil (w : World)
    (h : Limitsbar.refresh_taken w = false) :
    (Codexbar.main_attempt w).2 = [] := by
  unfold Limitsbar.refresh_taken at h
  unfold Codexbar.main_attempt
  cases hra : Codexbar.read_auth w with
  | error e => simp only [hra]
  | ok pr =>
    obtain ⟨auth, path⟩ := pr
    have hra' : Limitsbar.read_auth w = .ok (auth, path) := hra
    simp only [hra'] at h
    simp only [hra]
    cases h1 : auth.get "tokens" with
    | error e => simp only [h1]
    | ok tokensRaw =>
      simp only [h1] at h ⊢
      cases h2 : (orEmptyObj tokensRaw).get "access_token" with
      | error e => simp only [h2]
      | ok access_token =>
        simp only [h2] at h ⊢
        cases h3 : (orEmptyObj tokensRaw).get "refresh_token" with
        | error e => simp only [h3]
        | ok refresh_token =>
          simp only [h3] at h ⊢
          cases h4 : (orEmptyObj tokensRaw).get "account_id" with
          | error e => simp only [h4]
          | ok account_id =>
            simp only [h4] at h ⊢
            cases hat : access_token.truthy with
            | false => simp [hat]
            | true =>
              simp only [hat, Bool.not_true, Bool.false_eq_true, if_false] at h ⊢
              cases h5 : auth.get "last_refresh" with
              | error e => simp only [h5]
              | ok lr =>
                simp only [h5] at h ⊢
                have hrb : Codexbar.refresh_block w.now w.refreshResp auth
                    (orEmptyObj tokensRaw) access_token refresh_token
                    (Codexbar.parse_iso8601 lr) path = .ok (access_token, []) :=
                  refresh_block_not_taken w.now w.refreshResp auth
                    (orEmptyObj tokensRaw) access_token refresh_token
                    (Limitsbar.parse_iso8601 lr) path h
                simp only [hrb]
                cases h6 : (Codexbar.fetch_usage w.codexUsageUrl w.usageResp
                    access_token account_id).2 with
                | error e => simp only [h6]
                | ok usage => simp only [h6]

theorem limitsbar_attempt_ops_shape (w : World) :
    (Limitsbar.get_codex_status_attempt w).2 = []
    ∨ ∃ data, (Limitsbar.get_codex_status_attempt w).2
        = Limitsbar.write_auth (Limitsbar.auth_path w.home w.codexHome) data := by
  unfold Limitsbar.get_codex_status_attempt Limitsbar.read_auth
  cases hca : w.codexAuth with
  | none => exact Or.inl (by simp only [hca])
  | some r =>
    cases r with
    | error m => exact Or.inl (by simp only [hca])
    | ok v =>
      simp only [hca]
      cases h1 : v.get "tokens" with
      | error e => exact Or.inl rfl
      | ok tokensRaw =>
        simp only [h1]
        cases h2 : (orEmptyObj tokensRaw).get "access_token" with
        | error e => exact Or.inl rfl
        | ok access_token =>
          simp only [h2]
          cases h3 : (orEmptyObj tokensRaw).get "refresh_token" with
          | error e => exact Or.inl rfl
          | ok refresh_token =>
            simp only [h3]
            cases h4 : (orEmptyObj tokensRaw).get "account_id" with
            | error e => exact Or.inl rfl
            | ok account_id =>
              simp only [h4]
              cases hat : access_token.truthy with
              | false => exact Or.inl (by simp [hat])
              | true =>
                simp only [hat, Bool.not_true, Bool.false_eq_true, if_false]
                cases h5 : v.get "last_refresh" with
                | error e => exact Or.inl rfl
                | ok lr =>
                  simp only [h5]
                  cases hrb : Limitsbar.refresh_block w.now w.refreshResp v
                      (orEmptyObj tokensRaw) access_token refresh_token
                      (Limitsbar.parse_iso8601 lr)
                      (Limitsbar.auth_path w.home w.codexHome) with
                  | error e => exact Or.inl (by simp only [hrb])
                  | ok x =>
                    obtain ⟨a2, ops⟩ := x
                    have hshape := refresh_block_ops_shape w.now w.refreshResp v
                      (orEmptyObj tokensRaw) access_token refresh_token
                      (Limitsbar.parse_iso8601 lr)
                      (Limitsbar.auth_path w.home w.codexHome) (a2, ops) hrb
                    simp only [hrb]
                    cases h6 : (Limitsbar.fetch_usage w.codexUsageUrl w.usageResp
                        a2 account_id).2 with
                    | error e =>
                        simp only [h6]
                        exact hshape
                    | ok usage =>
                        simp only [h6]
                        exact hshape

theorem limitsbar_gcs_ops (w : World) :
    (Limitsbar.get_codex_status w).2 = (Limitsbar.get_codex_status_attempt w).2 := by
  unfold Limitsbar.get_codex_status
  rcases ha : Limitsbar.get_codex_status_attempt w with ⟨res, ops⟩
  cases res with
  | ok r => simp only [ha]
  | error e => cases e <;> simp only [ha]

theorem limitsbar_main_ops (w : World) :
    (Limitsbar.main w).2 = (Limitsbar.get_codex_status w).2 := by
  unfold Limitsbar.main
  rcases hgc : Limitsbar.get_codex_status w with ⟨pair, ops⟩
  cases hcl : Limitsbar.get_claude_status w with
  | error e => simp only [hgc, hcl]
  | ok r =>
      obtain ⟨claude, claude_err⟩ := r
      simp only [hgc, hcl]

theorem codexbar_main_ops (w : World) :
    (Codexbar.main w).2 = (Codexbar.main_attempt w).2 := by
  unfold Codexbar.main
  rcases ha : Codexbar.main_attempt w with ⟨res, ops⟩
  cases res with
  | ok r => simp only [ha]
  | error e => cases e <;> simp only [ha]

theorem append_ne_rev (x y u v : List Char) (i : Nat)
    (hu : i < u.length) (hv : i < v.length)
    (hne : u.reverse[i]? ≠ v.reverse[i]?) : x ++ u ≠ y ++ v := by
  intro h
  apply hne
  have h' : u.reverse ++ x.reverse = v.reverse ++ y.reverse := by
    have := congrArg List.reverse h
    rwa [List.reverse_append, List.reverse_append] at this
  have hi : (u.reverse ++ x.reverse)[i]? = (v.reverse ++ y.reverse)[i]? := by rw [h']
  rwa [List.getElem?_append_left (by simpa using hu),
    List.getElem?_append_left (by simpa using hv)] at hi

theorem authPath_ne_claude (x home : String) :
    pathJoin x "auth.json" ≠ Limitsbar.claude_credentials_path home := by
  intro h
  have hd := congrArg String.data h
  rw [show (pathJoin x "auth.json").data = (x ++ "/").data ++ "auth.json".data from
      String.data_append _ _,
    show (Limitsbar.claude_credentials_path home).data
        = (pathJoin home ".claude" ++ "/").data ++ ".credentials.json".data from
      String.data_append _ _] at hd
  exact append_ne_rev _ _ "auth.json".data ".credentials.json".data 5
    (by decide) (by decide) (by decide) hd

theorem authTmp_ne_claude (x home : String) :
    pathJoin x "auth.json" ++ ".tmp" ≠ Limitsbar.claude_credentials_path home := by
  intro h
  have hd := congrArg String.data h
  rw [show (pathJoin x "auth.json" ++ ".tmp").data
        = (pathJoin x "auth.json").data ++ ".tmp".data from String.data_append _ _,
    show (Limitsbar.claude_credentials_path home).data
        = (pathJoin home ".claude" ++ "/").data ++ ".credentials.json".data from
      String.data_append _ _] at hd
  exact append_ne_rev _ _ ".tmp".data ".credentials.json".data 0
    (by decide) (by decide) (by decide) hd

theorem auth_path_shape (home : String) (codexHome : Option String) :
    ∃ x, Limitsbar.auth_path home codexHome = pathJoin x "auth.json" := by
  unfold Limitsbar.auth_path
  by_cases hch : codexHome.getD "" ≠ ""
  · exact ⟨codexHome.getD "", by rw [if_pos hch]⟩
  · exact ⟨pathJoin home ".codex", by rw [if_neg hch]⟩

/-- C10: when the refresh branch is not taken — the stored refresh
token is absent (falsy), or the staleness predicate is false, or the
run never reaches the branch — neither entry point performs any
file-system write, so the Codex credential file is untouched; and in
every run of the dual-account tool the Claude credential file is never
written or replaced. -/
theorem C10_no_refresh_no_write (w : World) (h : Limitsbar.refresh_taken w = false) :
    (Limitsbar.main w).2 = []
    ∧ (Codexbar.main w).2 = []
    ∧ (∀ w' : World, ∀ op ∈ (Limitsbar.main w').2,
        Limitsbar.claude_credentials_path w'.home ∉ FsOp.touches op) := by
  refine ⟨?_, ?_, ?_⟩
  · rw [limitsbar_main_ops, limitsbar_gcs_ops]
    exact limitsbar_attempt_ops_nil w h
  · rw [codexbar_main_ops]
    exact codexbar_attempt_ops_nil w h
  · intro w' op hop hmem
    rw [limitsbar_main_ops, limitsbar_gcs_ops] at hop
    rcases limitsbar_attempt_ops_shape w' with hnil | ⟨data, hdata⟩
    · rw [hnil] at hop
      exact List.not_mem_nil op hop
    · rw [hdata] at hop
      obtain ⟨x, hx⟩ := auth_path_shape w'.home w'.codexHome
      rw [hx] at hop
      unfold Limitsbar.write_auth at hop
      rcases List.mem_cons.mp hop with rfl | hop
      · have h1 : Limitsbar.claude_credentials_path w'.home
            = pathJoin x "auth.json" ++ ".tmp" := by
          simpa [FsOp.touches] using hmem
        exact authTmp_ne_claude x w'.home h1.symm
      · rcases List.mem_cons.mp hop with rfl | hop
        · have h12 : Limitsbar.claude_credentials_path w'.home
              = pathJoin x "auth.json" ++ ".tmp"
            ∨ Limitsbar.claude_credentials_path w'.home = pathJoin x "auth.json" := by
            simpa [FsOp.touches] using hmem
          rcases h12 with h1 | h2
          · exact authTmp_ne_claude x w'.home h1.symm
          · exact authPath_ne_claude x w'.home h2.symm
        · exact List.not_mem_nil op hop

/-- C10 witness: a run whose credential record has no refresh token (and
a fresh `last_refresh`) performs no write at all. -/
theorem C10_no_refresh_no_write_witness :
    (Limitsbar.main wCodexHealthy).2 = [] ∧ (Codexbar.main wCodexHealthy).2 = [] :=
  ⟨(C10_no_refresh_no_write wCodexHealthy (by decide)).1,
    (C10_no_refresh_no_write wCodexHealthy (by decide)).2.1⟩

/-- C6 witness at `v = 0.42` (= `mkRat 21 50`) and `v = 87`. -/
theorem C6_claude_usage_percent_witness :
    Limitsbar.claude_usage_percent (.num (mkRat 21 50))
      = some (pyRound ((mkRat 21 50 : ℚ) * 100))
    ∧ Limitsbar.claude_usage_percent (.num 87) = some (pyRound (87 : ℚ)) :=
  ⟨(C6_claude_usage_percent (mkRat 21 50)).1 (by norm_num [Rat.mkRat_eq_div]),
    (C6_claude_usage_percent 87).2.1 (by norm_num)⟩
example : Codexbar.needs_refresh 1770000000 (some (1770000000 - 9 * 86400)) = true := by
  norm_num [Codexbar.needs_refresh, qSub_eq, Codexbar.AUTH_REFRESH_INTERVAL_SECONDS]
example : Codexbar.format_eta 1770000000 (.num 1770005400) = "1h 30m" := by decide
example : Codexbar.format_eta 1770000000 (.num 0) = "unknown" := by decide
example : Codexbar.format_eta 1770000000 (.num 1769000000) = "now" := by decide
example : Codexbar.class_for (some (.num 88)) = .ok "warn" := by decide
example : Codexbar.parse_iso8601 (.str "2026-02-04T10:59:59.868195Z")
    = some (mkRat 1770202799868195 1000000) := by decide
example : pyTrunc (mkRat (-7) 2) = -3 := by decide
example : pyRound (mkRat 1 2) = 0 := by decide
example : pyRound (mkRat 3 2) = 2 := by decide
example : pyRound (qMul (mkRat 21 50) 100) = 42 := by decide
example : (pyGt (.num 3) (.str "a")).isOk = false := by decide
example : pyIn (.str "user:profile") (.arr [.str "user:profile"]) = .ok true := by decide
example : pyIn (.str "ab") (.str "xaby") = .ok true := by decide
example : floatOfString "12.5" = some (mkRat 25 2) := by decide
example : intOfString "-42" = some (-42) := by decide
